import Mathlib

set_option maxHeartbeats 1000000
set_option maxRecDepth 4000

/-!
Shallow embedding of the WebGUI Arduino library (`src/WebGUI.cpp`,
`src/WebGUI.h`, `src/WebGUIStyles.h`) and proofs about its widget model,
request dispatcher, renderer, and settings persistence.

Arduino `String` values are modelled as `List Char`.  Machine integers are
modelled as `Int`/`Nat` with explicit `% 2^32` (or `% 65536`) where the C
code relies on fixed-width wraparound.  The byte-addressed EEPROM of the
UNO R4 path is a function `Nat → Nat` holding byte values.
-/

/-- Characters of a literal string: the model of an Arduino `String` value. -/
def toL (s : String) : List Char := s.data

/-- ASCII digit test, the model of Arduino `isDigit`. -/
def isDigitC (c : Char) : Bool := 48 ≤ c.toNat && c.toNat ≤ 57

/-- First index of character `c` in a character list, when present. -/
def fIdx (c : Char) : List Char → Option Nat
  | [] => none
  | a :: rest => if a = c then some 0 else (fIdx c rest).map (· + 1)

/-- Arduino `String::indexOf(char, from)`: first index at or after `start`, `-1` when absent. -/
def indexOfFrom (s : List Char) (c : Char) (start : Nat) : Int :=
  match fIdx c (s.drop start) with
  | some i => ((start + i : Nat) : Int)
  | none => -1

/-- Arduino `String::lastIndexOf(char)`. -/
def lastIndexOf (s : List Char) (c : Char) : Int :=
  match fIdx c s.reverse with
  | some i => ((s.length : Int)) - 1 - (i : Int)
  | none => -1

/-- Conversion of a C `int` to a 32-bit `unsigned int`, as performed implicitly at
`String::substring` call sites that receive `-1` from a failed `indexOf`. -/
def toU32 (i : Int) : Nat := (i % 4294967296).toNat

/-- Arduino `String::substring(left, right)`: swaps a reversed range and clamps to the length. -/
def substringA (s : List Char) (left right : Nat) : List Char :=
  (s.take (min (max left right) s.length)).drop (min left right)

/-- Whitespace skipped by C `atol` before the number. -/
def isSpaceC (c : Char) : Bool :=
  c = ' ' || c = '\t' || c = '\n' || c.toNat = 11 || c.toNat = 12 || c = '\r'

/-- Decimal value of a digit list. -/
def digitsVal (l : List Char) : Nat := l.foldl (fun a c => a * 10 + (c.toNat - 48)) 0

/-- Arduino `String::toInt` (C `atol`): optional whitespace, optional sign,
leading digit run, `0` when no digits are present. -/
def toIntA (s : List Char) : Int :=
  match s.dropWhile isSpaceC with
  | '-' :: r => -((digitsVal (r.takeWhile isDigitC) : Nat) : Int)
  | '+' :: r => ((digitsVal (r.takeWhile isDigitC) : Nat) : Int)
  | r => ((digitsVal (r.takeWhile isDigitC) : Nat) : Int)

/-- Arduino `constrain(amt, low, high)` macro. -/
def constrain (amt low high : Int) : Int :=
  if amt < low then low else if amt > high then high else amt

/-- Boolean prefix test on character lists. -/
def hasPfxB : List Char → List Char → Bool
  | [], _ => true
  | _ :: _, [] => false
  | p :: ps, c :: cs => p = c && hasPfxB ps cs

/-- First index at which `pat` occurs in a list, scanning left to right. -/
def subIdx (pat : List Char) (s : List Char) : Option Nat :=
  if hasPfxB pat s then some 0
  else
    match s with
    | [] => none
    | _ :: rest => (subIdx pat rest).map (· + 1)

/-- Arduino `String::indexOf(str)` (a `strstr` search), `-1` when absent. -/
def indexOfStr (s pat : List Char) : Int :=
  match subIdx pat s with
  | some i => (i : Int)
  | none => -1

/-- Containment of `pat` in `s`, i.e. `indexOf(pat) >= 0`. -/
def hasSub (pat s : List Char) : Bool := (subIdx pat s).isSome

/-- Worker for `areplace`: scan, and on a match emit the replacement and resume
after the matched occurrence (the replacement text is not rescanned).  The
fuel only bounds the recursion depth: every live step consumes at least one
character, so fuel equal to the scanned length always suffices, and when the
fuel case fires the list is already empty. -/
def areplaceGo (find repl : List Char) : Nat → List Char → List Char
  | 0, s => s
  | _, [] => []
  | fuel + 1, c :: rest =>
    if hasPfxB find (c :: rest) then
      repl ++ areplaceGo find repl fuel (rest.drop (find.length - 1))
    else c :: areplaceGo find repl fuel rest

/-- Arduino `String::replace(find, repl)`: replaces every occurrence left to
right; a no-op when `find` is empty. -/
def areplace (s find repl : List Char) : List Char :=
  if find.isEmpty then s else areplaceGo find repl s.length s

-- ===========================================================================
-- Widget model (`WebGUI.h` classes; `WebGUI.cpp` lines 1806-2190).
-- Layout fields (x, y, width, height), the `millis()` press timestamp, the
-- client-side debounce hint and the button style string are never observed by
-- any claim and are omitted from the state.
-- ===========================================================================

/-- `Button` state. -/
structure Button where
  id : List Char
  label : List Char
  pressed : Bool
  pressedFlag : Bool
deriving DecidableEq

/-- `Button::handleUpdate` (WebGUI.cpp 1888-1894): each received `"1"` toggles
`pressed` and arms the one-shot flag. -/
def Button.handleUpdate (b : Button) (value : List Char) : Button :=
  if value = toL "1" then { b with pressed := !b.pressed, pressedFlag := true } else b

/-- `Button::getValue` (WebGUI.cpp 1896-1898). -/
def Button.getValue (b : Button) : List Char := if b.pressed then toL "1" else toL "0"

/-- `Button::wasPressed` (WebGUI.cpp 1900-1906): consuming read of the one-shot flag. -/
def Button.wasPressed (b : Button) : Bool × Button :=
  if b.pressedFlag then (true, { b with pressedFlag := false }) else (false, b)

/-- `Toggle` state. -/
structure Toggle where
  id : List Char
  label : List Char
  state : Bool
  stateChanged : Bool
deriving DecidableEq

/-- `Toggle::handleUpdate` (WebGUI.cpp 1953-1959). -/
def Toggle.handleUpdate (t : Toggle) (value : List Char) : Toggle :=
  let newState := value = toL "1" || value = toL "true"
  if newState ≠ t.state then { t with state := newState, stateChanged := true } else t

/-- `Toggle::getValue` (WebGUI.cpp 1961-1963). -/
def Toggle.getValue (t : Toggle) : List Char := if t.state then toL "1" else toL "0"

/-- `Toggle::wasToggled` (WebGUI.cpp 1969-1975): consuming read of the changed flag. -/
def Toggle.wasToggled (t : Toggle) : Bool × Toggle :=
  if t.stateChanged then (true, { t with stateChanged := false }) else (false, t)

/-- `Slider` state. -/
structure Slider where
  id : List Char
  label : List Char
  minValue : Int
  maxValue : Int
  currentValue : Int
  valueChanged : Bool
deriving DecidableEq

/-- `Slider::handleUpdate` (WebGUI.cpp 1824-1830): the raw parsed integer is
compared against the stored value; on a difference the clamped value is stored
and the changed flag set. -/
def Slider.handleUpdate (sl : Slider) (value : List Char) : Slider :=
  let newValue := toIntA value
  if newValue ≠ sl.currentValue then
    { sl with currentValue := constrain newValue sl.minValue sl.maxValue, valueChanged := true }
  else sl

/-- `Slider::getValue` (WebGUI.cpp 1832-1834): `String(currentValue)`. -/
def Slider.getValue (sl : Slider) : List Char := toL (toString sl.currentValue)

/-- `Slider::setValue` (WebGUI.cpp 1844-1846). -/
def Slider.setValue (sl : Slider) (value : Int) : Slider :=
  { sl with currentValue := constrain value sl.minValue sl.maxValue }

/-- `SensorStatus` state. -/
structure SensorStatus where
  id : List Char
  label : List Char
  displayValue : List Char
deriving DecidableEq

/-- `SensorStatus::handleUpdate` (WebGUI.cpp 2162-2165): overwrites the display
value ("useful for reset operations" per the source comment). -/
def SensorStatus.handleUpdate (s : SensorStatus) (value : List Char) : SensorStatus :=
  { s with displayValue := value }

/-- `SensorStatus::getValue` (WebGUI.cpp 2167-2169). -/
def SensorStatus.getValue (s : SensorStatus) : List Char := s.displayValue

/-- `SensorStatus::setValue(int)` (WebGUI.cpp 2171-2173). -/
def SensorStatus.setValueInt (s : SensorStatus) (v : Int) : SensorStatus :=
  { s with displayValue := toL (toString v) }

/-- `SensorStatus::setValue(bool)` (WebGUI.cpp 2179-2181). -/
def SensorStatus.setValueBool (s : SensorStatus) (v : Bool) : SensorStatus :=
  { s with displayValue := if v then toL "true" else toL "false" }

/-- `SensorStatus::setValue(String)` (WebGUI.cpp 2183-2185); the `const char*`
overload is the same assignment.  The `float` overload's decimal formatting is
floating point and is not needed by any claim. -/
def SensorStatus.setValueString (s : SensorStatus) (v : List Char) : SensorStatus :=
  { s with displayValue := v }

/-- `TextBox` state. -/
structure TextBox where
  id : List Char
  label : List Char
  textValue : List Char
  placeholderText : List Char
  valueChanged : Bool
  lastValue : List Char
deriving DecidableEq

/-- `TextBox::handleUpdate` (WebGUI.cpp 2010-2014): after the assignments,
`lastValue` holds the previous text and the changed flag records whether the
text changed. -/
def TextBox.handleUpdate (t : TextBox) (value : List Char) : TextBox :=
  { t with lastValue := t.textValue, textValue := value,
           valueChanged := decide (t.textValue ≠ value) }

/-- `TextBox::getValue` (WebGUI.cpp 2016-2018). -/
def TextBox.getValue (t : TextBox) : List Char := t.textValue

/-- `TextBox::setValue` (WebGUI.cpp 2020-2023): stores the text and clears the
changed flag. -/
def TextBox.setValue (t : TextBox) (value : List Char) : TextBox :=
  { t with textValue := value, valueChanged := false }

/-- `TextBox::wasChanged` (WebGUI.cpp 2025-2029): consuming read of the changed flag. -/
def TextBox.wasChanged (t : TextBox) : Bool × TextBox :=
  (t.valueChanged, { t with valueChanged := false })

/-- The closed set of widget variants registered with the controller.
`SystemStatus` is declared in `WebGUI.h` but has no implementation in the
sources and cannot be instantiated, so it has no constructor here. -/
inductive GUIElement
  | button : Button → GUIElement
  | toggle : Toggle → GUIElement
  | slider : Slider → GUIElement
  | sensorStatus : SensorStatus → GUIElement
  | textBox : TextBox → GUIElement
deriving DecidableEq

/-- Virtual `getID` dispatch. -/
def GUIElement.getID : GUIElement → List Char
  | button b => b.id
  | toggle t => t.id
  | slider sl => sl.id
  | sensorStatus s => s.id
  | textBox t => t.id

/-- Virtual `getLabel` dispatch. -/
def GUIElement.getLabel : GUIElement → List Char
  | button b => b.label
  | toggle t => t.label
  | slider sl => sl.label
  | sensorStatus s => s.label
  | textBox t => t.label

/-- Virtual `handleUpdate` dispatch. -/
def GUIElement.handleUpdate : GUIElement → List Char → GUIElement
  | button b, v => button (b.handleUpdate v)
  | toggle t, v => toggle (t.handleUpdate v)
  | slider sl, v => slider (sl.handleUpdate v)
  | sensorStatus s, v => sensorStatus (s.handleUpdate v)
  | textBox t, v => textBox (t.handleUpdate v)

/-- Virtual `getValue` dispatch. -/
def GUIElement.getValue : GUIElement → List Char
  | button b => b.getValue
  | toggle t => t.getValue
  | slider sl => sl.getValue
  | sensorStatus s => s.getValue
  | textBox t => t.getValue

-- ===========================================================================
-- C3: Slider clamping and changed flag.
-- ===========================================================================

/-- Concrete slider used by the C3 counterexample: range [0,100], stored value
100, flag clear. -/
def sliderAtMax : Slider :=
  { id := toL "element0", label := toL "Speed", minValue := 0, maxValue := 100,
    currentValue := 100, valueChanged := false }

/-- C3 counterexample: sending `"200"` to a slider at its maximum stores the
clamped value 100 — equal to the prior stored value — yet sets the changed
flag, contradicting "the changed flag is set only if the clamped value differs
from the prior stored value". -/
theorem C3_counterexample :
    constrain (toIntA (toL "200")) sliderAtMax.minValue sliderAtMax.maxValue
        = sliderAtMax.currentValue ∧
    (sliderAtMax.handleUpdate (toL "200")).valueChanged = true := by decide

/-- C3 (amended): for a slider whose stored value lies within `[min, max]`,
`handleUpdate` followed by `getValue` yields `String(constrain(v, min, max))`
for the parsed integer `v`; the changed flag afterwards is the prior flag OR
the condition "raw parsed value differs from the prior stored value" (not the
clamped-value comparison the original claim states). -/
theorem C3_slider_clamp_amended (sl : Slider) (s : List Char)
    (h1 : sl.minValue ≤ sl.currentValue) (h2 : sl.currentValue ≤ sl.maxValue) :
    (sl.handleUpdate s).getValue
        = toL (toString (constrain (toIntA s) sl.minValue sl.maxValue)) ∧
    (sl.handleUpdate s).valueChanged
        = (sl.valueChanged || decide (toIntA s ≠ sl.currentValue)) := by
  have hc : constrain sl.currentValue sl.minValue sl.maxValue = sl.currentValue := by
    unfold constrain
    have hlt : ¬ sl.currentValue < sl.minValue := not_lt.mpr h1
    have hgt : ¬ sl.currentValue > sl.maxValue := not_lt.mpr h2
    simp [hlt, hgt]
  by_cases h : toIntA s = sl.currentValue
  · constructor
    · simp [Slider.handleUpdate, Slider.getValue, h, hc]
    · simp [Slider.handleUpdate, h]
  · constructor
    · simp [Slider.handleUpdate, Slider.getValue, h]
    · simp [Slider.handleUpdate, h]

/-- Concrete slider used by the C3 witness. -/
def sliderMid : Slider :=
  { id := toL "element1", label := toL "Level", minValue := 0, maxValue := 10,
    currentValue := 5, valueChanged := false }

/-- C3 witness: the amended theorem applied to `sliderMid` and input `"7"`. -/
theorem C3_slider_clamp_witness :
    (sliderMid.minValue ≤ sliderMid.currentValue ∧
      sliderMid.currentValue ≤ sliderMid.maxValue) ∧
    ((sliderMid.handleUpdate (toL "7")).getValue
        = toL (toString (constrain (toIntA (toL "7")) sliderMid.minValue sliderMid.maxValue)) ∧
      (sliderMid.handleUpdate (toL "7")).valueChanged
        = (sliderMid.valueChanged || decide (toIntA (toL "7") ≠ sliderMid.currentValue))) :=
  ⟨⟨by decide, by decide⟩, C3_slider_clamp_amended sliderMid (toL "7") (by decide) (by decide)⟩

-- ===========================================================================
-- C4: idempotence of applyUpdate with respect to the changed/one-shot flag.
-- ===========================================================================

/-- Concrete button used by the C4 counterexample. -/
def btnFresh : Button :=
  { id := toL "element0", label := toL "Press", pressed := false, pressedFlag := false }

/-- C4 counterexample: on a `Button`, `handleUpdate "1"`, a consuming
`wasPressed` read, then `handleUpdate "1"` again with the identical value
re-arms the one-shot flag — the claim says the flag must not re-arm. -/
theorem C4_counterexample :
    (btnFresh.handleUpdate (toL "1")).wasPressed.1 = true ∧
    (((btnFresh.handleUpdate (toL "1")).wasPressed.2).handleUpdate (toL "1")).pressedFlag
        = true := by decide

/-- C4 (amended): for the value-carrying widgets `Toggle` and `TextBox` the
claim holds — a second `handleUpdate` with an identical value is a no-op for
`Toggle`, leaves the `TextBox` flag clear, and after a consuming read a
same-value update does not re-arm either flag.  `Button` is excluded: each
received `"1"` is a distinct press event and re-arms its one-shot flag by
design (`Slider` has no consuming read of its flag). -/
theorem C4_idempotent_amended (tg : Toggle) (tb : TextBox) (v w : List Char) :
    (tg.handleUpdate v).handleUpdate v = tg.handleUpdate v ∧
    ((tb.handleUpdate w).handleUpdate w).valueChanged = false ∧
    (((tg.handleUpdate v).wasToggled.2).handleUpdate v).stateChanged = false ∧
    (((tb.handleUpdate w).wasChanged.2).handleUpdate w).valueChanged = false := by
  refine ⟨?_, ?_, ?_, ?_⟩
  · by_cases h : (v = toL "1" || v = toL "true") = tg.state
    · simp [Toggle.handleUpdate, h]
    · simp [Toggle.handleUpdate, h]
  · simp [TextBox.handleUpdate]
  · by_cases h : (v = toL "1" || v = toL "true") = tg.state
    · cases hs : tg.stateChanged <;>
        simp [Toggle.handleUpdate, Toggle.wasToggled, h, hs]
    · simp [Toggle.handleUpdate, Toggle.wasToggled, h]
  · simp [TextBox.handleUpdate, TextBox.wasChanged]

-- ===========================================================================
-- C10: TextBox.setValue stores the value and clears the changed flag.
-- ===========================================================================

/-- C10: a sketch-side `setValue(v)` leaves the text equal to `v` and the
changed flag cleared, even when an unread client-side `handleUpdate` had armed
the flag just before. -/
theorem C10_setValue_clears (tb : TextBox) (u v : List Char) :
    ((tb.handleUpdate u).setValue v).textValue = v ∧
    ((tb.handleUpdate u).setValue v).wasChanged.1 = false := by
  simp [TextBox.handleUpdate, TextBox.setValue, TextBox.wasChanged]

-- ===========================================================================
-- Persistent settings, raw non-volatile byte-array strategy
-- (`WebGUI.cpp` 2195-2491, the EEPROM branch used on the UNO R4 WiFi).
-- ===========================================================================

/-- The byte-addressed EEPROM: a total map from addresses to byte values. -/
def EEPROMState : Type := Nat → Nat

/-- Zero-initialised storage. -/
def eepromZero : EEPROMState := fun _ => 0

/-- Write one byte (`EEPROM.put` of a one-byte object). -/
def putByte (m : EEPROMState) (addr v : Nat) : EEPROMState :=
  fun a => if a = addr then v % 256 else m a

/-- `EEPROM.put` of a 4-byte object, little endian. -/
def putBytes4 (m : EEPROMState) (addr n : Nat) : EEPROMState :=
  putByte (putByte (putByte (putByte m addr n) (addr + 1) (n / 256))
    (addr + 2) (n / 65536)) (addr + 3) (n / 16777216)

/-- `EEPROM.get` of a 4-byte object, little endian. -/
def getBytes4 (m : EEPROMState) (addr : Nat) : Nat :=
  m addr + 256 * m (addr + 1) + 65536 * m (addr + 2) + 16777216 * m (addr + 3)

/-- The multiplicative key hash `hash = hash * 31 + key[i]` over `uint16_t`
(keys are ASCII, so the signed `char` reads match `Char.toNat`). -/
def hash31 (key : List Char) : Nat :=
  key.foldl (fun h c => (h * 31 + c.toNat) % 65536) 0

/-- The additive accumulation `addr = 16; addr += key[i]` over `uint16_t`,
used only by `saveSetting(key, bool)`. -/
def sumHash16 (key : List Char) : Nat :=
  key.foldl (fun a c => (a + c.toNat) % 65536) 16

/-- Int slot address `1616 + (hash % 100) * 16`. -/
def intSlotAddr (key : List Char) : Nat := 1616 + (hash31 key % 100) * 16

/-- Float slot address `3216 + (hash % 100) * 16`. -/
def floatSlotAddr (key : List Char) : Nat := 3216 + (hash31 key % 100) * 16

/-- String slot address `16 + (hash % 100) * 16`. -/
def stringSlotAddr (key : List Char) : Nat := 16 + (hash31 key % 100) * 16

/-- Address written by `saveSetting(key, bool)`: `(addr % 1000) + 16` over the
additive hash. -/
def boolSaveAddr (key : List Char) : Nat := (sumHash16 key % 1000) + 16

/-- Address read by `loadBoolSetting`: `16 + (hash % 200) * 8` over the
multiplicative hash. -/
def boolLoadAddr (key : List Char) : Nat := 16 + (hash31 key % 200) * 8

/-- `WebGUI::saveSetting(const char*, int)` (WebGUI.cpp 2215-2254): the four
bytes of the 32-bit two's-complement representation at the int slot. -/
def saveSettingInt (m : EEPROMState) (key : List Char) (v : Int) : EEPROMState :=
  putBytes4 m (intSlotAddr key) ((v % 4294967296).toNat)

/-- `WebGUI::loadIntSetting` (WebGUI.cpp 2379-2404). -/
def loadIntSetting (m : EEPROMState) (key : List Char) : Int :=
  let n := getBytes4 m (intSlotAddr key)
  if n < 2147483648 then (n : Int) else (n : Int) - 4294967296

/-- `WebGUI::saveSetting(const char*, float)` (WebGUI.cpp 2256-2293): the four
bytes of the float's object representation are copied verbatim; the model
carries the 32-bit bit pattern (no floating-point arithmetic is involved). -/
def saveSettingFloat (m : EEPROMState) (key : List Char) (bits : Nat) : EEPROMState :=
  putBytes4 m (floatSlotAddr key) (bits % 4294967296)

/-- `WebGUI::loadFloatSetting` (WebGUI.cpp 2406-2431), returning the bit pattern. -/
def loadFloatSetting (m : EEPROMState) (key : List Char) : Nat :=
  getBytes4 m (floatSlotAddr key)

/-- `WebGUI::saveSetting(const char*, bool)` (WebGUI.cpp 2295-2332): one byte at
the additive-hash address. -/
def saveSettingBool (m : EEPROMState) (key : List Char) (v : Bool) : EEPROMState :=
  putByte m (boolSaveAddr key) (if v then 1 else 0)

/-- `WebGUI::loadBoolSetting` (WebGUI.cpp 2433-2458): one byte read at the
multiplicative-hash address; a nonzero byte reads back as `true`. -/
def loadBoolSetting (m : EEPROMState) (key : List Char) : Bool :=
  decide (m (boolLoadAddr key) ≠ 0)

/-- Write the characters of `cs` to consecutive addresses starting at `addr`. -/
def writeChars (m : EEPROMState) (addr : Nat) : List Char → EEPROMState
  | [] => m
  | c :: rest => writeChars (putByte m addr c.toNat) (addr + 1) rest

/-- `WebGUI::saveSetting(const char*, const char*)` (WebGUI.cpp 2334-2377): the
length byte `uint8_t len = strlen(value)` followed by at most 15 characters of
the value (`i < len && i < 15`) in the 16-byte slot. -/
def saveSettingString (m : EEPROMState) (key value : List Char) : EEPROMState :=
  let addr := stringSlotAddr key
  let len := value.length % 256
  writeChars (putByte m addr len) (addr + 1) (value.take (min len 15))

/-- `WebGUI::loadStringSetting` (WebGUI.cpp 2460-2491): reads the length byte,
returns `""` for lengths over 15, otherwise reads that many bytes into a
zero-filled buffer and takes the C string up to the first NUL byte. -/
def loadStringSetting (m : EEPROMState) (key : List Char) : List Char :=
  let addr := stringSlotAddr key
  let len := m addr
  if len > 15 then []
  else (((List.range len).map (fun i => m (addr + 1 + i))).takeWhile
    (fun b => decide (b ≠ 0))).map Char.ofNat

-- Supporting round-trip facts for the int, float and string strategies, and
-- the address-mismatch facts behind C1.

/-- Value of a `putByte` map at any address. -/
theorem putByte_app (m : EEPROMState) (a v a' : Nat) :
    putByte m a v a' = if a' = a then v % 256 else m a' := rfl

/-- Reading four bytes back after a 4-byte put yields the value mod `2^32`. -/
theorem getBytes4_putBytes4 (m : EEPROMState) (a n : Nat) :
    getBytes4 (putBytes4 m a n) a = n % 4294967296 := by
  simp only [getBytes4, putBytes4, putByte_app]
  split_ifs <;> omega

/-- Int settings round-trip on the EEPROM strategy, for any 32-bit value. -/
theorem loadIntSetting_saveSettingInt (m : EEPROMState) (key : List Char) (v : Int)
    (h1 : -2147483648 ≤ v) (h2 : v < 2147483648) :
    loadIntSetting (saveSettingInt m key v) key = v := by
  simp only [loadIntSetting, saveSettingInt]
  rw [getBytes4_putBytes4]
  split_ifs <;> omega

/-- Witness for the int round-trip at `key = "k"`, `v = 42`. -/
theorem loadIntSetting_saveSettingInt_witness :
    (-2147483648 ≤ (42 : Int) ∧ (42 : Int) < 2147483648) ∧
    loadIntSetting (saveSettingInt eepromZero (toL "k") 42) (toL "k") = 42 :=
  ⟨⟨by decide, by decide⟩, loadIntSetting_saveSettingInt eepromZero (toL "k") 42 (by decide) (by decide)⟩

/-- Float settings round-trip on the EEPROM strategy (bit-pattern level). -/
theorem loadFloatSetting_saveSettingFloat (m : EEPROMState) (key : List Char) (bits : Nat)
    (h : bits < 4294967296) :
    loadFloatSetting (saveSettingFloat m key bits) key = bits := by
  unfold loadFloatSetting saveSettingFloat
  rw [getBytes4_putBytes4]
  omega

/-- Witness for the float round-trip at the bit pattern of `1.5f`. -/
theorem loadFloatSetting_saveSettingFloat_witness :
    1069547520 < 4294967296 ∧
    loadFloatSetting (saveSettingFloat eepromZero (toL "k") 1069547520) (toL "k") = 1069547520 :=
  ⟨by decide, loadFloatSetting_saveSettingFloat eepromZero (toL "k") 1069547520 (by decide)⟩

/-- The bool saver writes only `boolSaveAddr key`, so the byte the loader reads
is untouched whenever the two addresses differ: the loaded bool is then
independent of the saved value. -/
theorem loadBool_independent_of_saved (m : EEPROMState) (key : List Char) (v w : Bool)
    (h : boolSaveAddr key ≠ boolLoadAddr key) :
    loadBoolSetting (saveSettingBool m key v) key
      = loadBoolSetting (saveSettingBool m key w) key := by
  unfold loadBoolSetting saveSettingBool
  rw [putByte_app, putByte_app, if_neg (Ne.symm h), if_neg (Ne.symm h)]

/-- Witness: for the key `"k"` the two bool addresses differ (139 vs 872). -/
theorem loadBool_independent_of_saved_witness :
    boolSaveAddr (toL "k") ≠ boolLoadAddr (toL "k") ∧
    loadBoolSetting (saveSettingBool eepromZero (toL "k") true) (toL "k")
      = loadBoolSetting (saveSettingBool eepromZero (toL "k") false) (toL "k") :=
  ⟨by decide, loadBool_independent_of_saved eepromZero (toL "k") true false (by decide)⟩

/-- C1: the bool round-trip fails on the raw byte-array strategy.
`saveSetting("k", true)` writes byte 1 at address 139 (additive hash mod 1000,
plus 16) but `loadBoolSetting("k")` reads address 872 (multiplicative hash mod
200, times 8, plus 16), so on zero-initialised storage the saved `true` loads
back as `false`.  The int and float loaders carry the source comment "Match
saveSetting address" and do match their savers; the bool pair does not. -/
theorem C1_bool_roundtrip_fails :
    loadBoolSetting (saveSettingBool eepromZero (toL "k") true) (toL "k") = false := by decide

/-- `takeWhile (· ≠ 0)` keeps a NUL-free byte list whole. -/
theorem takeWhileNz (l : List Nat) (h : ∀ b ∈ l, b ≠ 0) :
    l.takeWhile (fun b => decide (b ≠ 0)) = l := by
  induction l with
  | nil => simp
  | cons b rest ih =>
    rw [List.takeWhile_cons, if_pos (by simpa using h b (by simp))]
    rw [ih (fun d hd => h d (by simp [hd]))]

/-- Value of a `writeChars` map at any address. -/
theorem writeChars_app (cs : List Char) (m : EEPROMState) (a a' : Nat) :
    writeChars m a cs a'
      = if a ≤ a' ∧ a' < a + cs.length
        then (cs.getD (a' - a) (Char.ofNat 0)).toNat % 256 else m a' := by
  induction cs generalizing m a with
  | nil =>
    simp only [writeChars, List.length_nil, Nat.add_zero]
    rw [if_neg (by omega)]
  | cons c rest ih =>
    rw [writeChars, ih]
    by_cases h1 : a' = a
    · subst h1
      simp [putByte_app]
    · by_cases h2 : a + 1 ≤ a' ∧ a' < a + 1 + rest.length
      · rw [if_pos h2, if_pos (by simp only [List.length_cons]; omega)]
        have hd : a' - a = (a' - (a + 1)) + 1 := by omega
        rw [hd, List.getD_cons_succ]
      · rw [if_neg h2, if_neg (by simp only [List.length_cons]; omega), putByte_app, if_neg h1]

/-- String settings round-trip on the EEPROM strategy for values that fit the
15-character slot (ASCII, NUL-free). -/
theorem loadStringSetting_saveSettingString (m : EEPROMState) (key value : List Char)
    (hlen : value.length ≤ 15)
    (hnz : ∀ c ∈ value, c.toNat ≠ 0) (hbyte : ∀ c ∈ value, c.toNat < 256) :
    loadStringSetting (saveSettingString m key value) key = value := by
  unfold loadStringSetting saveSettingString
  have hmod : value.length % 256 = value.length := Nat.mod_eq_of_lt (by omega)
  rw [hmod]
  have hmin : min value.length 15 = value.length := min_eq_left hlen
  rw [hmin, List.take_length]
  have hlenbyte : writeChars (putByte m (stringSlotAddr key) value.length)
      (stringSlotAddr key + 1) value (stringSlotAddr key) = value.length := by
    rw [writeChars_app, if_neg (by omega), putByte_app, if_pos rfl,
      Nat.mod_eq_of_lt (by omega)]
  simp only [hlenbyte]
  rw [if_neg (by omega)]
  have hread : (List.range value.length).map
      (fun i => writeChars (putByte m (stringSlotAddr key) value.length)
        (stringSlotAddr key + 1) value (stringSlotAddr key + 1 + i))
      = value.map (fun c => c.toNat) := by
    apply List.ext_getElem
    · simp
    · intro i h1 h2
      simp only [List.getElem_map, List.getElem_range]
      rw [writeChars_app, if_pos (by simp at h1; omega)]
      have hi : stringSlotAddr key + 1 + i - (stringSlotAddr key + 1) = i := by omega
      rw [hi]
      have hilt : i < value.length := by simpa using h1
      rw [List.getD_eq_getElem?_getD, List.getElem?_eq_getElem hilt]
      simp only [Option.getD_some]
      exact Nat.mod_eq_of_lt (hbyte _ (List.getElem_mem hilt))
  rw [hread]
  have hkeep : (value.map (fun c => c.toNat)).takeWhile (fun b => decide (b ≠ 0))
      = value.map (fun c => c.toNat) := by
    apply takeWhileNz
    intro b hb
    rcases List.mem_map.mp hb with ⟨c, hc, rfl⟩
    exact hnz c hc
  rw [hkeep, List.map_map]
  have : (Char.ofNat ∘ fun c => c.toNat) = id := by
    funext c
    simp [Function.comp, Char.ofNat_toNat]
  rw [this, List.map_id]

/-- Witness for the string round-trip at the 15-character maximum. -/
theorem loadStringSetting_saveSettingString_witness :
    ((toL "abcdefghijklmno").length ≤ 15 ∧
      (∀ c ∈ toL "abcdefghijklmno", c.toNat ≠ 0) ∧
      (∀ c ∈ toL "abcdefghijklmno", c.toNat < 256)) ∧
    loadStringSetting (saveSettingString eepromZero (toL "k") (toL "abcdefghijklmno"))
      (toL "k") = toL "abcdefghijklmno" :=
  ⟨⟨by decide, by decide, by decide⟩,
    loadStringSetting_saveSettingString eepromZero (toL "k") (toL "abcdefghijklmno")
      (by decide) (by decide) (by decide)⟩

/-- One byte over the slot limit: a 16-character value stores length byte 16,
which the loader rejects, so the load deterministically returns the empty
string (rather than a 15-character truncation). -/
theorem loadStringSetting_oversize (m : EEPROMState) (key value : List Char)
    (h : value.length = 16) :
    loadStringSetting (saveSettingString m key value) key = [] := by
  unfold loadStringSetting saveSettingString
  have hlenbyte : writeChars (putByte m (stringSlotAddr key) (value.length % 256))
      (stringSlotAddr key + 1) (value.take (min (value.length % 256) 15))
      (stringSlotAddr key) = 16 := by
    rw [writeChars_app, if_neg (by omega), putByte_app, if_pos rfl, h]
  simp only [hlenbyte]
  norm_num

/-- Witness for the oversize-string determinism at a 16-character value. -/
theorem loadStringSetting_oversize_witness :
    (toL "abcdefghijklmnop").length = 16 ∧
    loadStringSetting (saveSettingString eepromZero (toL "k") (toL "abcdefghijklmnop"))
      (toL "k") = [] :=
  ⟨by decide, loadStringSetting_oversize eepromZero (toL "k") (toL "abcdefghijklmnop") (by decide)⟩

-- ===========================================================================
-- Request dispatcher (`WebGUI.cpp` 1418-1513, the streaming-socket path).
-- ===========================================================================

/-- Inner element scan of the set-request loop (WebGUI.cpp 1495-1500): the
first element whose identifier matches the parameter name receives the update
and the scan breaks. -/
def applyParam (els : List GUIElement) (pname value : List Char) : List GUIElement :=
  match els with
  | [] => []
  | e :: rest =>
    if e.getID = pname then e.handleUpdate value :: rest
    else e :: applyParam rest pname value

/-- One iteration's locals in `WebGUI::handleSetRequest` (WebGUI.cpp
1478-1486): the current segment `param`, the next `start`, and the next `end`
(`end == -1` takes the rest of the string and stops the loop). -/
def setStep (params : List Char) (start : Nat) (endP : Int) : List Char × Nat × Int :=
  if endP = -1 then
    (substringA params start params.length, params.length, endP)
  else
    (substringA params start (toU32 endP), toU32 endP + 1,
      indexOfFrom params '&' (toU32 endP + 1))

/-- The update the loop body applies for one segment (WebGUI.cpp 1488-1501):
names only arise from segments whose first `=` sits at a positive index. -/
def segApply (param : List Char) (els : List GUIElement) : List GUIElement :=
  if indexOfFrom param '=' 0 > 0 then
    applyParam els (substringA param 0 (toU32 (indexOfFrom param '=' 0)))
      (substringA param (toU32 (indexOfFrom param '=' 0) + 1) param.length)
  else els

/-- The `while (start < params.length())` loop of `WebGUI::handleSetRequest`
(WebGUI.cpp 1477-1502), with explicit fuel.  Each iteration either strictly
increases `start` (the next `&` search starts past the previous separator) or
sets `start = params.length()`, so `params.length + 1` units of fuel cover
every reachable execution. -/
def setLoop (params : List Char) : Nat → List GUIElement → Nat → Int → List GUIElement
  | 0, els, _, _ => els
  | fuel + 1, els, start, endP =>
    if start < params.length then
      setLoop params fuel (segApply (setStep params start endP).1 els)
        (setStep params start endP).2.1 (setStep params start endP).2.2
    else els

/-- The query-string slice of a set request (WebGUI.cpp 1469-1471):
`request.substring(indexOf("?") + 1, indexOf(" ", paramStart))`. -/
def requestParams (request : List Char) : List Char :=
  substringA request (toU32 (indexOfFrom request '?' 0 + 1))
    (toU32 (indexOfFrom request ' ' (toU32 (indexOfFrom request '?' 0 + 1))))

/-- `WebGUI::handleSetRequest(String request)` (WebGUI.cpp 1467-1503). -/
def handleSetRequest (request : List Char) (els : List GUIElement) : List GUIElement :=
  setLoop (requestParams request) ((requestParams request).length + 1) els 0
    (indexOfFrom (requestParams request) '&' 0)

/-- The parameter names the set loop extracts and looks up (the `eqPos > 0`
segments), mirroring the recursion of `setLoop`. -/
def setLoopNames (params : List Char) : Nat → Nat → Int → List (List Char)
  | 0, _, _ => []
  | fuel + 1, start, endP =>
    if start < params.length then
      (if indexOfFrom (setStep params start endP).1 '=' 0 > 0 then
        [substringA (setStep params start endP).1 0
          (toU32 (indexOfFrom (setStep params start endP).1 '=' 0))]
      else [])
        ++ setLoopNames params fuel (setStep params start endP).2.1
            (setStep params start endP).2.2
    else []

/-- The parameter names a whole set request submits to the element scan. -/
def requestNames (request : List Char) : List (List Char) :=
  setLoopNames (requestParams request) ((requestParams request).length + 1) 0
    (indexOfFrom (requestParams request) '&' 0)

/-- One `"id":"value"` entry of the JSON snapshot. -/
def jsonEntry (e : GUIElement) : List Char :=
  toL "\"" ++ e.getID ++ toL "\":\"" ++ e.getValue ++ toL "\""

/-- `WebGUI::generateGetResponse` (WebGUI.cpp 1505-1513): `\x7b`, the entries
joined with `,` in registration order (a comma before every index `i > 0`),
then `\x7d`. -/
def generateGetResponse (els : List GUIElement) : List Char :=
  toL "\x7b" ++
    (els.enum.foldl
      (fun acc p => acc ++ (if 0 < p.1 then toL "," else []) ++ jsonEntry p.2) []) ++
    toL "\x7d"

/-- An element scan for a name no element carries is the identity. -/
theorem applyParam_no_match (els : List GUIElement) (pname value : List Char)
    (h : ∀ e ∈ els, e.getID ≠ pname) : applyParam els pname value = els := by
  induction els with
  | nil => rfl
  | cons e rest ih =>
    rw [applyParam, if_neg (h e (by simp))]
    rw [ih (fun d hd => h d (by simp [hd]))]

/-- If every name the loop extracts is unmatched, the registry is unchanged. -/
theorem setLoop_unmatched (params : List Char) (fuel : Nat) :
    ∀ (els : List GUIElement) (start : Nat) (endP : Int),
    (∀ n ∈ setLoopNames params fuel start endP, ∀ e ∈ els, e.getID ≠ n) →
    setLoop params fuel els start endP = els := by
  induction fuel with
  | zero => intro els start endP _; rfl
  | succ fuel ih =>
    intro els start endP h
    rw [setLoopNames] at h
    rw [setLoop]
    by_cases hs : start < params.length
    · rw [if_pos hs]
      rw [if_pos hs] at h
      by_cases he : indexOfFrom (setStep params start endP).1 '=' 0 > 0
      · rw [segApply, if_pos he]
        rw [if_pos he] at h
        rw [applyParam_no_match _ _ _ (fun e hee => h _ (by simp) e hee)]
        exact ih els _ _ (fun n hn e hee => h n (by simp [hn]) e hee)
      · rw [segApply, if_neg he]
        rw [if_neg he] at h
        exact ih els _ _ (fun n hn e hee => h n (by simpa using hn) e hee)
    · rw [if_neg hs]

-- Helper facts about the character-search and substring primitives.

/-- `fIdx` misses exactly the absent characters. -/
theorem fIdx_eq_none (c : Char) (s : List Char) (h : c ∉ s) : fIdx c s = none := by
  induction s with
  | nil => rfl
  | cons a rest ih =>
    rw [fIdx, if_neg (by intro he; exact h (by simp [he]))]
    rw [ih (fun hm => h (by simp [hm]))]
    rfl

/-- Searching past a block that lacks `c` offsets the index by the block length. -/
theorem fIdx_append_right (c : Char) (a b : List Char) (h : c ∉ a) :
    fIdx c (a ++ b) = (fIdx c b).map (· + a.length) := by
  induction a with
  | nil => cases hb : fIdx c b <;> simp [hb]
  | cons x rest ih =>
    rw [List.cons_append, fIdx, if_neg (by intro he; exact h (by simp [he]))]
    rw [ih (fun hm => h (by simp [hm]))]
    cases hb : fIdx c b <;> simp [hb] <;> omega

/-- The head always matches itself. -/
theorem fIdx_cons_self (c : Char) (rest : List Char) : fIdx c (c :: rest) = some 0 := by
  rw [fIdx, if_pos rfl]

/-- `indexOfFrom` on a successful inner search. -/
theorem indexOfFrom_found (s : List Char) (c : Char) (start i : Nat)
    (h : fIdx c (s.drop start) = some i) :
    indexOfFrom s c start = ((start + i : Nat) : Int) := by
  unfold indexOfFrom
  rw [h]

/-- `indexOfFrom` on a failed inner search. -/
theorem indexOfFrom_none (s : List Char) (c : Char) (start : Nat)
    (h : fIdx c (s.drop start) = none) :
    indexOfFrom s c start = -1 := by
  unfold indexOfFrom
  rw [h]

/-- `toU32` is the identity on in-range naturals. -/
theorem toU32_coe (n : Nat) (h : n < 4294967296) : toU32 ((n : Nat) : Int) = n := by
  unfold toU32
  omega

/-- `substring(0, length)` is the whole string. -/
theorem substringA_full (s : List Char) : substringA s 0 s.length = s := by
  simp [substringA]

/-- `substring(0, |a|)` of `a ++ b` is `a`. -/
theorem substringA_take (a b : List Char) : substringA (a ++ b) 0 a.length = a := by
  unfold substringA
  have h1 : max 0 a.length = a.length := by omega
  have h2 : min a.length (a ++ b).length = a.length := by
    simp [List.length_append]
  rw [h1, h2]
  simp [List.take_left]

/-- `substring(|a|, |a| + |b|)` of `a ++ (b ++ c)` is `b`. -/
theorem substringA_mid (a b c : List Char) :
    substringA (a ++ (b ++ c)) a.length (a.length + b.length) = b := by
  unfold substringA
  have h1 : max a.length (a.length + b.length) = a.length + b.length := by omega
  have h2 : min (a.length + b.length) (a ++ (b ++ c)).length = a.length + b.length := by
    simp [List.length_append]
  have h3 : min a.length (a.length + b.length) = a.length := by omega
  rw [h1, h2, h3]
  rw [show a ++ (b ++ c) = (a ++ b) ++ c by simp]
  rw [show a.length + b.length = (a ++ b).length by simp]
  rw [List.take_left]
  rw [List.drop_left]

/-- `substring(|a| + 1, length)` of `a ++ x :: b` is `b`. -/
theorem substringA_dropped (a b : List Char) (x : Char) :
    substringA (a ++ x :: b) (a.length + 1) (a ++ x :: b).length = b := by
  unfold substringA
  have hlen : (a ++ x :: b).length = a.length + 1 + b.length := by simp; omega
  have h1 : max (a.length + 1) (a ++ x :: b).length = (a ++ x :: b).length := by omega
  have h2 : min (a ++ x :: b).length (a ++ x :: b).length = (a ++ x :: b).length := by omega
  have h3 : min (a.length + 1) (a ++ x :: b).length = a.length + 1 := by omega
  rw [h1, h2, h3, List.take_length]
  rw [show a ++ x :: b = (a ++ [x]) ++ b from by simp]
  rw [show a.length + 1 = (a ++ [x]).length from by simp]
  rw [List.drop_left]

/-- Exhausted or stopped loops leave the registry alone. -/
theorem setLoop_stop (params : List Char) (fuel : Nat) (els : List GUIElement)
    (start : Nat) (endP : Int) (h : ¬ start < params.length) :
    setLoop params fuel els start endP = els := by
  cases fuel with
  | zero => rfl
  | succ fuel => rw [setLoop, if_neg h]

/-- One live iteration of the loop in the final-segment case (`end == -1`):
the segment is the rest of the string and `start` jumps to the length. -/
theorem setLoop_step_none (params : List Char) (fuel : Nat) (els : List GUIElement)
    (start : Nat) (h : start < params.length) :
    setLoop params (fuel + 1) els start (-1)
      = setLoop params fuel (segApply (substringA params start params.length) els)
          params.length (-1) := by
  rw [setLoop, if_pos h]
  rfl

/-- A set request carrying exactly one `name=value` pair routes that pair to
the element scan: `handleSetRequest` on `GET /set?<pid>=<v> <tail>` is
`applyParam els pid v`, provided the name and value avoid the separator
characters the parser splits on. -/
theorem handleSetRequest_single (pid v tail : List Char) (els : List GUIElement)
    (hbound : pid.length + v.length < 1000000)
    (hpid_ne : pid ≠ [])
    (hsp_pid : ' ' ∉ pid) (hsp_v : ' ' ∉ v)
    (hamp_pid : '&' ∉ pid) (hamp_v : '&' ∉ v)
    (heq_pid : '=' ∉ pid) :
    handleSetRequest (toL "GET /set?" ++ ((pid ++ '=' :: v) ++ ' ' :: tail)) els
      = applyParam els pid v := by
  have hmidlen : (pid ++ '=' :: v).length = pid.length + 1 + v.length := by
    simp [List.length_append]
    omega
  have hmid : ' ' ∉ pid ++ '=' :: v := by
    intro hm
    rcases List.mem_append.mp hm with h | h
    · exact hsp_pid h
    · rcases List.mem_cons.mp h with h | h
      · exact absurd h (by decide)
      · exact hsp_v h
  have hf1 : fIdx '?' ((toL "GET /set?" ++ ((pid ++ '=' :: v) ++ ' ' :: tail)).drop 0)
      = some 8 := by
    rw [List.drop_zero]
    rw [show toL "GET /set?" = toL "GET /set" ++ ['?'] from by decide]
    rw [List.append_assoc]
    rw [fIdx_append_right _ _ _ (by decide)]
    rw [show ['?'] ++ ((pid ++ '=' :: v) ++ ' ' :: tail)
        = '?' :: ((pid ++ '=' :: v) ++ ' ' :: tail) from rfl]
    rw [fIdx_cons_self]
    decide
  have hstart : toU32 (indexOfFrom (toL "GET /set?" ++ ((pid ++ '=' :: v) ++ ' ' :: tail)) '?' 0 + 1)
      = 9 := by
    rw [indexOfFrom_found _ _ _ _ hf1]
    decide
  have hdrop9 : (toL "GET /set?" ++ ((pid ++ '=' :: v) ++ ' ' :: tail)).drop 9
      = (pid ++ '=' :: v) ++ ' ' :: tail := by
    rw [show (9 : Nat) = (toL "GET /set?").length from by decide]
    rw [List.drop_left]
  have hf2 : fIdx ' ' ((toL "GET /set?" ++ ((pid ++ '=' :: v) ++ ' ' :: tail)).drop 9)
      = some (0 + (pid ++ '=' :: v).length) := by
    rw [hdrop9, fIdx_append_right _ _ _ hmid, fIdx_cons_self]
    rfl
  have hparams : requestParams (toL "GET /set?" ++ ((pid ++ '=' :: v) ++ ' ' :: tail))
      = pid ++ '=' :: v := by
    unfold requestParams
    rw [hstart]
    rw [indexOfFrom_found _ _ _ _ hf2]
    rw [show ((9 + (0 + (pid ++ '=' :: v).length) : Nat) : Int)
        = ((9 + (pid ++ '=' :: v).length : Nat) : Int) from by push_cast; omega]
    rw [toU32_coe _ (by omega)]
    rw [show (9 : Nat) = (toL "GET /set?").length from by decide]
    exact substringA_mid _ _ _
  have hamp : indexOfFrom (pid ++ '=' :: v) '&' 0 = -1 := by
    apply indexOfFrom_none
    rw [List.drop_zero]
    apply fIdx_eq_none
    intro hm
    rcases List.mem_append.mp hm with h | h
    · exact hamp_pid h
    · rcases List.mem_cons.mp h with h | h
      · exact absurd h (by decide)
      · exact hamp_v h
  have hf3 : fIdx '=' ((pid ++ '=' :: v).drop 0) = some (0 + pid.length) := by
    rw [List.drop_zero, fIdx_append_right _ _ _ heq_pid, fIdx_cons_self]
    rfl
  have heqpos : indexOfFrom (pid ++ '=' :: v) '=' 0 = ((pid.length : Nat) : Int) := by
    rw [indexOfFrom_found _ _ _ _ hf3]
    push_cast
    omega
  unfold handleSetRequest
  rw [hparams, hamp]
  rw [setLoop_step_none _ _ _ _ (by rw [hmidlen]; omega)]
  simp only [segApply]
  rw [substringA_full]
  rw [heqpos]
  rw [if_pos (by exact_mod_cast List.length_pos.mpr hpid_ne)]
  rw [toU32_coe _ (by omega)]
  rw [substringA_take]
  rw [substringA_dropped]
  rw [setLoop_stop _ _ _ _ _ (lt_irrefl _)]

-- ===========================================================================
-- C5: SensorStatus and client set requests.
-- ===========================================================================

/-- Registry used by the C5 counterexample: one SensorStatus showing `"0"`. -/
def sensorReg : List GUIElement :=
  [GUIElement.sensorStatus
    { id := toL "element0", label := toL "Temp", displayValue := toL "0" }]

/-- C5 counterexample: a set request naming the SensorStatus identifier
changes its display string from `"0"` to `"hi"` — the claim says the display
string of every SensorStatus is unchanged by set-value requests. -/
theorem C5_counterexample :
    (handleSetRequest (toL "GET /set?element0=hi HTTP/1.1\r\nHost: a\r\n\r\n") sensorReg).map
        GUIElement.getValue = [toL "hi"] ∧
    sensorReg.map GUIElement.getValue = [toL "0"] := by decide

/-- C5 (amended): a SensorStatus IS updatable via client requests — a set
request whose parameter name equals the SensorStatus identifier overwrites its
display string with the sent value (`SensorStatus::handleUpdate` assigns it;
the page merely never emits such a request on its own).  Sketch-side typed
setters (`setValueInt`/`setValueBool`/`setValueString`) also overwrite it. -/
theorem C5_sensor_updatable_amended (pid v tail label disp : List Char)
    (hbound : pid.length + v.length < 1000000)
    (hpid_ne : pid ≠ [])
    (hsp_pid : ' ' ∉ pid) (hsp_v : ' ' ∉ v)
    (hamp_pid : '&' ∉ pid) (hamp_v : '&' ∉ v)
    (heq_pid : '=' ∉ pid) :
    handleSetRequest (toL "GET /set?" ++ ((pid ++ '=' :: v) ++ ' ' :: tail))
        [GUIElement.sensorStatus { id := pid, label := label, displayValue := disp }]
      = [GUIElement.sensorStatus { id := pid, label := label, displayValue := v }] := by
  rw [handleSetRequest_single pid v tail _ hbound hpid_ne hsp_pid hsp_v hamp_pid hamp_v heq_pid]
  simp [applyParam, GUIElement.getID, GUIElement.handleUpdate, SensorStatus.handleUpdate]

/-- C5 witness: the amended theorem at `pid = "element0"`, `v = "25"`. -/
theorem C5_sensor_updatable_witness :
    ((toL "element0").length + (toL "25").length < 1000000 ∧
      toL "element0" ≠ [] ∧ ' ' ∉ toL "element0" ∧ ' ' ∉ toL "25" ∧
      '&' ∉ toL "element0" ∧ '&' ∉ toL "25" ∧ '=' ∉ toL "element0") ∧
    handleSetRequest
        (toL "GET /set?" ++ ((toL "element0" ++ '=' :: toL "25") ++ ' ' :: toL "HTTP/1.1"))
        [GUIElement.sensorStatus
          { id := toL "element0", label := toL "Temp", displayValue := toL "0" }]
      = [GUIElement.sensorStatus
          { id := toL "element0", label := toL "Temp", displayValue := toL "25" }] :=
  ⟨⟨by decide, by decide, by decide, by decide, by decide, by decide, by decide⟩,
    C5_sensor_updatable_amended (toL "element0") (toL "25") (toL "HTTP/1.1")
      (toL "Temp") (toL "0") (by decide) (by decide) (by decide) (by decide)
      (by decide) (by decide) (by decide)⟩

-- ===========================================================================
-- C7: the get-values JSON snapshot.
-- ===========================================================================

/-- The comma-separated fold of the response loop equals the intercalated map,
generalised over the starting index and accumulator for indices past zero. -/
theorem getResponse_fold_from (els : List GUIElement) (i : Nat) (acc : List Char)
    (hi : 0 < i) :
    (els.enumFrom i).foldl
        (fun acc p => acc ++ (if 0 < p.1 then toL "," else []) ++ jsonEntry p.2) acc
      = acc ++ (els.map (fun e => toL "," ++ jsonEntry e)).flatten := by
  induction els generalizing i acc with
  | nil => simp
  | cons e rest ih =>
    rw [List.enumFrom_cons, List.foldl_cons]
    rw [if_pos hi]
    rw [ih (i + 1) _ (by omega)]
    simp [List.append_assoc]

/-- Intercalation as the head followed by separator-prefixed tails. -/
theorem intercalate_eq_join_map (sep x : List Char) (xs : List (List Char)) :
    List.intercalate sep (x :: xs) = x ++ (xs.map (fun y => sep ++ y)).flatten := by
  induction xs generalizing x with
  | nil => simp [List.intercalate, List.intersperse]
  | cons y ys ih =>
    have h1 : List.intercalate sep (x :: y :: ys)
        = x ++ (sep ++ List.intercalate sep (y :: ys)) := by
      simp [List.intercalate, List.intersperse, List.append_assoc]
    rw [h1, ih y]
    simp [List.append_assoc]

/-- C7: the get-values body is a flat JSON object with exactly one
`"id":"value"` entry per registered widget, in registration order, each value
the widget's `getValue` at the time of the call. -/
theorem C7_get_response_shape (els : List GUIElement) :
    generateGetResponse els
      = toL "\x7b" ++ List.intercalate (toL ",") (els.map jsonEntry) ++ toL "\x7d" := by
  unfold generateGetResponse
  cases els with
  | nil => rfl
  | cons e rest =>
    rw [show (e :: rest).enum = (0, e) :: rest.enumFrom 1 from rfl]
    rw [List.foldl_cons]
    rw [getResponse_fold_from rest 1 _ (by omega)]
    rw [List.map_cons, intercalate_eq_join_map]
    simp [List.append_assoc]
    rfl

-- ===========================================================================
-- C8/C9: TextBox IPv4 and subnet validators (`WebGUI.cpp` 2036-2133).
-- ===========================================================================

/-- The character-scan loop of `TextBox::isValidIPAddress` (WebGUI.cpp
2042-2054), over the remaining characters with the running index `i`, the dot
count, and the last-dot index (`-1` initially).  A failed check returns
`none` (the C `return false`); completion returns the final dot count. -/
def ipScan (ip : List Char) : List Char → Nat → Nat → Int → Option Nat
  | [], _, dotCount, _ => some dotCount
  | c :: rest, i, dotCount, lastDot =>
    if c = '.' then
      if dotCount + 1 > 3 then none
      else if (i : Int) = lastDot + 1 then none
      else if i = 0 ∨ i = ip.length - 1 then none
      else ipScan ip rest (i + 1) (dotCount + 1) (i : Int)
    else if !isDigitC c then none
    else ipScan ip rest (i + 1) dotCount lastDot

/-- The per-octet checks of the extraction loop (WebGUI.cpp 2064-2071). -/
def octetCheck (octet : List Char) : Bool :=
  if octet.length = 0 ∨ octet.length > 3 then false
  else if toIntA octet < 0 ∨ toIntA octet > 255 then false
  else if octet.length > 1 ∧ octet.getD 0 (Char.ofNat 0) = '0' then false
  else true

/-- The `for (int dot = 0; dot < 4; dot++)` extraction loop (WebGUI.cpp
2059-2074).  `remaining` counts the iterations left (`4 - dot`), making the
recursion structural; the call below starts it at 4. -/
def octetLoop (ip : List Char) : Nat → Nat → Nat → Bool
  | 0, _, _ => true
  | remaining + 1, dot, start =>
    if (if dot = 3 then ((ip.length : Nat) : Int) else indexOfFrom ip '.' start) = -1 then
      false
    else if octetCheck (substringA ip start
        (toU32 (if dot = 3 then ((ip.length : Nat) : Int) else indexOfFrom ip '.' start))) then
      octetLoop ip remaining (dot + 1)
        (toU32 (if dot = 3 then ((ip.length : Nat) : Int) else indexOfFrom ip '.' start) + 1)
    else false

/-- `TextBox::isValidIPAddress(const String&)` (WebGUI.cpp 2036-2077). -/
def isValidIPAddress (ip : List Char) : Bool :=
  if ip.length = 0 then false
  else
    match ipScan ip ip 0 0 (-1) with
    | none => false
    | some dotCount => if dotCount ≠ 3 then false else octetLoop ip 4 0 0

/-- Dot-splitting used by the spec-side characterisation. -/
def splitDot : List Char → List (List Char)
  | [] => [[]]
  | c :: rest =>
    if c = '.' then [] :: splitDot rest
    else
      match splitDot rest with
      | [] => [[c]]
      | g :: gs => (c :: g) :: gs

/-- Spec-side octet predicate, following the spec's words: a nonempty numeric
group in 0..255 with no leading zero except the literal `"0"`. -/
def specOctet (o : List Char) : Bool :=
  decide (o ≠ []) && o.all isDigitC &&
    (decide (o.getD 0 (Char.ofNat 0) ≠ '0') || decide (o = ['0'])) &&
    decide (digitsVal o ≤ 255)

/-- Spec-side IPv4 predicate, following the spec's words: exactly four
dot-separated numeric groups, each a valid octet. -/
def specValidIP (s : List Char) : Bool :=
  decide ((splitDot s).length = 4) && (splitDot s).all specOctet

/-- `TextBox::isValidSubnetMask` (WebGUI.cpp 2095-2114): octets are packed
into a 32-bit word (`(p0<<24)|(p1<<16)|(p2<<8)|p3`, taken mod `2^32` as the
`uint32_t` assignment does), the word is bitwise-inverted, and the mask is
valid when `inverted & (inverted + 1) == 0` (the `+ 1` also wraps mod `2^32`). -/
def isValidSubnetMask (subnet : List Char) : Bool :=
  if !isValidIPAddress subnet then false
  else
    (fun p0 p1 p2 p3 =>
      (fun mask =>
        (fun inverted =>
          decide (Nat.land inverted ((inverted + 1) % 4294967296) = 0))
        (Nat.xor mask 4294967295))
      ((Nat.lor (Nat.lor (Nat.lor (Nat.shiftLeft p0 24) (Nat.shiftLeft p1 16))
        (Nat.shiftLeft p2 8)) p3) % 4294967296))
    (toU32 (toIntA (substringA subnet 0 (toU32 (indexOfFrom subnet '.' 0)))))
    (toU32 (toIntA (substringA subnet (toU32 (indexOfFrom subnet '.' 0) + 1)
      (toU32 (indexOfFrom subnet '.' (toU32 (indexOfFrom subnet '.' 0) + 1))))))
    (toU32 (toIntA (substringA subnet
      (toU32 (indexOfFrom subnet '.' (toU32 (indexOfFrom subnet '.' 0) + 1)) + 1)
      (toU32 (indexOfFrom subnet '.'
        (toU32 (indexOfFrom subnet '.' (toU32 (indexOfFrom subnet '.' 0) + 1)) + 1))))))
    (toU32 (toIntA (substringA subnet
      (toU32 (indexOfFrom subnet '.'
        (toU32 (indexOfFrom subnet '.' (toU32 (indexOfFrom subnet '.' 0) + 1)) + 1)) + 1)
      subnet.length)))

/-- `TextBox::validateNetworkConfig` (WebGUI.cpp 2116-2133): each component is
validated; for a `255.255.255.0` mask the first three octets of ip and gateway
must agree (the `substring(0, lastIndexOf('.'))` slices); other masks pass on
format alone. -/
def validateNetworkConfig (ip subnet gateway : List Char) : Bool :=
  if !isValidIPAddress ip || !isValidSubnetMask subnet || !isValidIPAddress gateway then
    false
  else if subnet = toL "255.255.255.0" then
    decide (substringA ip 0 (toU32 (lastIndexOf ip '.'))
      = substringA gateway 0 (toU32 (lastIndexOf gateway '.')))
  else true

/-- Examples of the IPv4 validator, matching the spec's test vector. -/
theorem isValidIPAddress_examples :
    isValidIPAddress (toL "192.168.1.1") = true ∧
    isValidIPAddress (toL "192.168.1.256") = false ∧
    isValidIPAddress (toL "192.168.01.1") = false ∧
    isValidIPAddress (toL "192.168.1") = false ∧
    isValidIPAddress (toL "") = false := by decide

/-- C9: `validateNetworkConfig` accepts ip/gateway in the same /24 under
`255.255.255.0` and rejects a gateway in a different /24. -/
theorem C9_validateNetworkConfig :
    validateNetworkConfig (toL "192.168.1.50") (toL "255.255.255.0") (toL "192.168.1.1") = true ∧
    validateNetworkConfig (toL "192.168.1.50") (toL "255.255.255.0") (toL "10.0.0.1") = false := by
  decide

-- Structure theory for the IPv4 equivalence proof.

/-- A character the scan loop admits: a digit or a dot. -/
def digitOrDot (c : Char) : Bool := isDigitC c || c = '.'

/-- No two adjacent dots. -/
def noConsec : List Char → Prop
  | [] => True
  | [_] => True
  | a :: b :: t => ¬(a = '.' ∧ b = '.') ∧ noConsec (b :: t)

/-- `splitDot` never returns the empty list of groups. -/
theorem splitDot_ne_nil (s : List Char) : splitDot s ≠ [] := by
  cases s with
  | nil => simp [splitDot]
  | cons c rest =>
    rw [splitDot]
    by_cases h : c = '.'
    · simp [h]
    · rw [if_neg h]
      cases hr : splitDot rest <;> simp

/-- Group count is the dot count plus one. -/
theorem splitDot_length (s : List Char) :
    (splitDot s).length = s.count '.' + 1 := by
  induction s with
  | nil => simp [splitDot]
  | cons c rest ih =>
    rw [splitDot]
    by_cases h : c = '.'
    · subst h
      simp [List.count_cons, ih]
    · rw [if_neg h]
      cases hr : splitDot rest with
      | nil => exact absurd hr (splitDot_ne_nil rest)
      | cons g gs =>
        rw [hr] at ih
        simp [List.count_cons, h, ih]
        simpa using ih

/-- Splitting a dot-free block before a dot peels one group. -/
theorem splitDot_append_dot (a r : List Char) (h : '.' ∉ a) :
    splitDot (a ++ '.' :: r) = a :: splitDot r := by
  induction a with
  | nil => simp [splitDot]
  | cons c rest ih =>
    rw [List.cons_append, splitDot, if_neg (by intro hc; exact h (by simp [hc]))]
    rw [ih (fun hm => h (by simp [hm]))]

/-- A dot-free string is one group. -/
theorem splitDot_no_dot (a : List Char) (h : '.' ∉ a) : splitDot a = [a] := by
  induction a with
  | nil => rfl
  | cons c rest ih =>
    rw [splitDot, if_neg (by intro hc; exact h (by simp [hc]))]
    rw [ih (fun hm => h (by simp [hm]))]

/-- Members of `splitDot` are dot-free. -/
theorem splitDot_no_dot_mem (s : List Char) : ∀ g ∈ splitDot s, '.' ∉ g := by
  induction s with
  | nil => simp [splitDot]
  | cons c rest ih =>
    rw [splitDot]
    by_cases h : c = '.'
    · rw [if_pos h]
      intro g hg
      rcases List.mem_cons.mp hg with h1 | h1
      · subst h1; simp
      · exact ih g h1
    · rw [if_neg h]
      cases hr : splitDot rest with
      | nil => exact absurd hr (splitDot_ne_nil rest)
      | cons g0 gs =>
        intro g hg
        rcases List.mem_cons.mp hg with h1 | h1
        · subst h1
          intro hm
          rcases List.mem_cons.mp hm with h2 | h2
          · exact h h2.symm
          · exact ih g0 (by rw [hr]; simp) h2
        · exact ih g (by rw [hr]; simp [h1])

/-- Rebuilding the string from its groups. -/
theorem splitDot_join (s : List Char) :
    List.intercalate ['.'] (splitDot s) = s := by
  induction s with
  | nil => simp [splitDot, List.intercalate, List.intersperse]
  | cons c rest ih =>
    by_cases h : c = '.'
    · subst h
      rw [splitDot, if_pos rfl]
      cases hr : splitDot rest with
      | nil => exact absurd hr (splitDot_ne_nil rest)
      | cons g gs =>
        rw [hr] at ih
        rw [intercalate_eq_join_map] at ih
        rw [intercalate_eq_join_map]
        simp only [List.map_cons, List.flatten_cons, List.nil_append]
        rw [List.append_assoc]
        rw [ih]
        rfl
    · rw [splitDot, if_neg h]
      cases hr : splitDot rest with
      | nil => exact absurd hr (splitDot_ne_nil rest)
      | cons g gs =>
        rw [hr] at ih
        rw [intercalate_eq_join_map] at ih
        rw [intercalate_eq_join_map, List.cons_append, ih]

/-- When every character is a digit or a dot, every group is all digits. -/
theorem splitDot_groups_digit (s : List Char) (h : s.all digitOrDot = true) :
    ∀ g ∈ splitDot s, g.all isDigitC = true := by
  induction s with
  | nil =>
    intro g hg
    simp [splitDot] at hg
    simp [hg]
  | cons c rest ih =>
    have hca : digitOrDot c = true ∧ ∀ x ∈ rest, digitOrDot x = true := by
      simpa using h
    have hc : digitOrDot c = true := hca.1
    have hrest : rest.all digitOrDot = true := List.all_eq_true.mpr hca.2
    rw [splitDot]
    by_cases hd : c = '.'
    · rw [if_pos hd]
      intro g hg
      rcases List.mem_cons.mp hg with h1 | h1
      · simp [h1]
      · exact ih hrest g h1
    · rw [if_neg hd]
      have hcd : isDigitC c = true := by
        unfold digitOrDot at hc
        simp [hd] at hc
        exact hc
      cases hr : splitDot rest with
      | nil => exact absurd hr (splitDot_ne_nil rest)
      | cons g0 gs =>
        intro g hg
        rcases List.mem_cons.mp hg with h1 | h1
        · subst h1
          rw [List.all_cons, hcd]
          simpa using ih hrest g0 (by rw [hr]; simp)
        · exact ih hrest g (by rw [hr]; simp [h1])

/-- The head of the group list of a string that does not begin with a dot. -/
theorem splitDot_head_cons (c : Char) (r : List Char) (h : c ≠ '.') :
    ∃ g gs, splitDot (c :: r) = (c :: g) :: gs := by
  rw [splitDot, if_neg h]
  cases hr : splitDot r with
  | nil => exact absurd hr (splitDot_ne_nil r)
  | cons g gs => exact ⟨g, gs, rfl⟩

/-- With no adjacent dots and no trailing dot, every group after the first is
nonempty. -/
theorem splitDot_tail_ne_nil (s : List Char) (h1 : noConsec s)
    (h2 : s.getLast? ≠ some '.') :
    ∀ g ∈ (splitDot s).tail, g ≠ [] := by
  induction s with
  | nil => simp [splitDot]
  | cons c rest ih =>
    have hrest1 : noConsec rest := by
      cases rest with
      | nil => trivial
      | cons d t => exact (h1.2 : noConsec (d :: t))
    have hrest2 : rest ≠ [] → rest.getLast? ≠ some '.' := by
      intro hne hcontra
      apply h2
      cases rest with
      | nil => exact absurd rfl hne
      | cons d t =>
        rw [List.getLast?_cons_cons]
        exact hcontra
    have htail : ∀ g ∈ (splitDot rest).tail, g ≠ [] := by
      by_cases hrn : rest = []
      · subst hrn
        simp [splitDot]
      · exact ih hrest1 (hrest2 hrn)
    rw [splitDot]
    by_cases hd : c = '.'
    · rw [if_pos hd]
      subst hd
      cases rest with
      | nil => exact absurd (by simp) h2
      | cons d t =>
        have hd_ne : d ≠ '.' := by
          intro hdd
          exact h1.1 ⟨rfl, hdd⟩
        rcases splitDot_head_cons d t hd_ne with ⟨g, gs, hsplit⟩
        rw [hsplit]
        intro g' hg'
        rcases List.mem_cons.mp hg' with hh | hh
        · subst hh
          simp
        · have := htail
          rw [hsplit] at this
          exact this g' hh
    · rw [if_neg hd]
      cases hr : splitDot rest with
      | nil => exact absurd hr (splitDot_ne_nil rest)
      | cons g0 gs =>
        intro g hg
        simp only [List.tail_cons] at hg
        apply htail
        rw [hr]
        simpa using hg

/-- Boolean equality from the two-sided truth condition. -/
theorem bool_eq_of_iff (a b : Bool) (h : a = true ↔ b = true) : a = b := by
  cases a <;> cases b <;> simp_all

/-- Folding digits from an arbitrary accumulator. -/
theorem digitsVal_acc (l : List Char) (acc : Nat) :
    l.foldl (fun a c => a * 10 + (c.toNat - 48)) acc
      = acc * 10 ^ l.length + digitsVal l := by
  induction l generalizing acc with
  | nil => simp [digitsVal]
  | cons c t ih =>
    rw [List.foldl_cons, ih]
    have hdv : digitsVal (c :: t) = (c.toNat - 48) * 10 ^ t.length + digitsVal t := by
      rw [digitsVal, List.foldl_cons, ih]
      simp
    rw [hdv, List.length_cons, pow_succ]
    ring

/-- A digit string with a nonzero leading digit is at least `10^(len-1)`. -/
theorem digitsVal_lower (c : Char) (t : List Char) (hd : isDigitC c = true)
    (hne : c ≠ '0') : 10 ^ t.length ≤ digitsVal (c :: t) := by
  have h1 : digitsVal (c :: t) = (c.toNat - 48) * 10 ^ t.length + digitsVal t := by
    rw [digitsVal, List.foldl_cons, digitsVal_acc]
    simp [digitsVal]
  rw [h1]
  have h48 : c.toNat ≠ 48 := by
    intro h
    apply hne
    rw [show c = Char.ofNat c.toNat from (Char.ofNat_toNat c).symm, h]
  have hc : 1 ≤ c.toNat - 48 := by
    unfold isDigitC at hd
    simp at hd
    omega
  calc 10 ^ t.length = 1 * 10 ^ t.length := by ring
  _ ≤ (c.toNat - 48) * 10 ^ t.length := Nat.mul_le_mul_right _ hc
  _ ≤ _ := Nat.le_add_right _ _

/-- Space characters all have code at most 32. -/
theorem isSpaceC_le (c : Char) (h : isSpaceC c = true) : c.toNat ≤ 32 := by
  unfold isSpaceC at h
  simp at h
  rcases h with ((((h | h) | h) | h) | h) | h
  · rw [h]; decide
  · rw [h]; decide
  · rw [h]; decide
  · omega
  · omega
  · rw [h]; decide

/-- `takeWhile` keeps a list every element of which satisfies the test. -/
theorem takeWhile_all (p : Char → Bool) (l : List Char) (h : l.all p = true) :
    l.takeWhile p = l := by
  induction l with
  | nil => rfl
  | cons c t ih =>
    have hall := List.all_eq_true.mp h
    rw [List.takeWhile_cons, if_pos (by simpa using hall c (by simp))]
    rw [ih (List.all_eq_true.mpr (fun x hx => hall x (by simp [hx])))]

/-- `toInt` of a nonempty all-digit string is its decimal value. -/
theorem toIntA_digits (o : List Char) (hne : o ≠ []) (hd : o.all isDigitC = true) :
    toIntA o = (digitsVal o : Int) := by
  cases o with
  | nil => exact absurd rfl hne
  | cons c t =>
    have hc : isDigitC c = true := by
      simpa using List.all_eq_true.mp hd c (by simp)
    have hsp : isSpaceC c = false := by
      by_cases hs : isSpaceC c = true
      · exfalso
        have h32 := isSpaceC_le c hs
        unfold isDigitC at hc
        simp at hc
        omega
      · simpa using hs
    have hdrop : (c :: t).dropWhile isSpaceC = c :: t := by
      rw [List.dropWhile_cons, hsp]
      simp
    unfold toIntA
    rw [hdrop]
    split
    · next r heq =>
      exfalso
      have h1 : c = '-' := (List.cons.injEq _ _ _ _ ▸ heq).1
      rw [h1] at hc
      exact absurd hc (by decide)
    · next r heq =>
      exfalso
      have h1 : c = '+' := (List.cons.injEq _ _ _ _ ▸ heq).1
      rw [h1] at hc
      exact absurd hc (by decide)
    · next r h1 h2 =>
      rw [takeWhile_all _ _ hd]

/-- On nonempty all-digit groups the code's octet checks coincide with the
spec's octet predicate. -/
theorem octetCheck_eq_specOctet (o : List Char) (hne : o ≠ [])
    (hd : o.all isDigitC = true) : octetCheck o = specOctet o := by
  have hval : toIntA o = (digitsVal o : Int) := toIntA_digits o hne hd
  apply bool_eq_of_iff
  constructor
  · intro h
    unfold octetCheck at h
    split_ifs at h with h1 h2 h3
    have h255 : digitsVal o ≤ 255 := by
      rw [hval] at h2
      push_neg at h2
      exact_mod_cast h2.2
    have hhead : o.getD 0 (Char.ofNat 0) ≠ '0' ∨ o = ['0'] := by
      by_cases hz : o.getD 0 (Char.ofNat 0) = '0'
      · right
        have hlen : o.length = 1 := by
          rcases Nat.lt_or_ge 1 o.length with hgt | hle
          · exact absurd ⟨hgt, hz⟩ h3
          · have h0 : o.length ≠ 0 := fun h0 => hne (List.length_eq_zero.mp h0)
            omega
        rcases List.length_eq_one.mp hlen with ⟨a, ha⟩
        rw [ha]
        rw [ha] at hz
        simpa using hz
      · left; exact hz
    unfold specOctet
    simp only [Bool.and_eq_true, Bool.or_eq_true, decide_eq_true_eq]
    refine ⟨⟨⟨hne, hd⟩, ?_⟩, h255⟩
    rcases hhead with hh | hh
    · left; exact hh
    · right; exact hh
  · intro h
    unfold specOctet at h
    simp only [Bool.and_eq_true, Bool.or_eq_true, decide_eq_true_eq] at h
    obtain ⟨⟨⟨hne2, hd2⟩, hhead⟩, h255⟩ := h
    have hlen3 : o.length ≤ 3 := by
      by_contra hgt
      push_neg at hgt
      cases o with
      | nil => exact hne rfl
      | cons c t =>
        have hc : isDigitC c = true := by
          simpa using List.all_eq_true.mp hd c (by simp)
        have hcz : c ≠ '0' := by
          rcases hhead with hh | hh
          · simpa using hh
          · rw [hh] at hgt
            simp at hgt
        have hlow := digitsVal_lower c t hc hcz
        have hpow : 1000 ≤ 10 ^ t.length := by
          have ht : 3 ≤ t.length := by
            simp only [List.length_cons] at hgt
            omega
          calc (1000 : Nat) = 10 ^ 3 := by norm_num
          _ ≤ 10 ^ t.length := Nat.pow_le_pow_right (by norm_num) ht
        omega
    unfold octetCheck
    rw [if_neg (by
      push_neg
      constructor
      · intro h0
        exact absurd (List.length_eq_zero.mp h0) hne
      · omega)]
    rw [if_neg (by
      push_neg
      rw [hval]
      constructor
      · exact_mod_cast Int.ofNat_nonneg _
      · exact_mod_cast h255)]
    rw [if_neg (by
      intro hcontra
      rcases hhead with hh | hh
      · exact hh hcontra.2
      · rw [hh] at hcontra
        simp at hcontra)]

/-- A run of digits advances the scan without touching the dot state. -/
theorem ipScan_digits (ip : List Char) (o : List Char) (hdig : o.all isDigitC = true) :
    ∀ (rest : List Char) (i dc : Nat) (ld : Int),
    ipScan ip (o ++ rest) i dc ld = ipScan ip rest (i + o.length) dc ld := by
  induction o with
  | nil =>
    intro rest i dc ld
    simp
  | cons c t ih =>
    intro rest i dc ld
    have hall := List.all_eq_true.mp hdig
    have hc : isDigitC c = true := by simpa using hall c (by simp)
    have hcd : c ≠ '.' := by
      intro h
      rw [h] at hc
      exact absurd hc (by decide)
    rw [List.cons_append, ipScan, if_neg hcd, if_neg (by simp [hc])]
    rw [ih (List.all_eq_true.mpr (fun x hx => hall x (by simp [hx]))) rest (i + 1) dc ld]
    have harith : i + 1 + t.length = i + (c :: t).length := by
      simp [List.length_cons]
      omega
    rw [harith]

/-- Soundness of the scan: a successful scan of a suffix forces the admitted
alphabet, the dot count, no adjacent dots, no dot right after the previous
one, and no trailing dot. -/
theorem ipScan_sound (ip : List Char) :
    ∀ (rest : List Char) (i dc : Nat) (ld : Int) (dcf : Nat),
    ipScan ip rest i dc ld = some dcf →
    i + rest.length = ip.length →
    dc ≤ dcf ∧ rest.all digitOrDot = true ∧ rest.count '.' = dcf - dc ∧
      noConsec rest ∧ ((i : Int) = ld + 1 → rest.head? ≠ some '.') ∧
      rest.getLast? ≠ some '.' := by
  intro rest
  induction rest with
  | nil =>
    intro i dc ld dcf h hinv
    rw [ipScan] at h
    have hdc : dc = dcf := by
      simpa using h
    subst hdc
    refine ⟨le_refl _, by simp, by simp, trivial, by simp, by simp⟩
  | cons c rest' ih =>
    intro i dc ld dcf h hinv
    have hinv' : (i + 1) + rest'.length = ip.length := by
      simp only [List.length_cons] at hinv
      omega
    rw [ipScan] at h
    by_cases hdot : c = '.'
    · rw [if_pos hdot] at h
      subst hdot
      split_ifs at h with hA hB hC
      obtain ⟨ih1, ih2, ih3, ih4, ih5, ih6⟩ := ih (i + 1) (dc + 1) (i : Int) dcf h hinv'
      have hhead : rest'.head? ≠ some '.' := ih5 (by push_cast; ring)
      refine ⟨by omega, ?_, ?_, ?_, ?_, ?_⟩
      · rw [List.all_cons]
        simp [ih2, digitOrDot]
      · rw [List.count_cons]
        simp
        omega
      · cases rest' with
        | nil => trivial
        | cons d t =>
          refine ⟨?_, ih4⟩
          intro ⟨_, hd2⟩
          exact hhead (by simp [hd2])
      · intro hContra
        exact absurd hContra hB
      · cases rest' with
        | nil =>
          exfalso
          simp only [List.length_cons, List.length_nil] at hinv
          exact hC (Or.inr (by omega))
        | cons d t =>
          rw [List.getLast?_cons_cons]
          exact ih6
    · rw [if_neg hdot] at h
      by_cases hdig : isDigitC c = true
      · rw [if_neg (by simp [hdig])] at h
        obtain ⟨ih1, ih2, ih3, ih4, ih5, ih6⟩ := ih (i + 1) dc ld dcf h hinv'
        refine ⟨ih1, ?_, ?_, ?_, ?_, ?_⟩
        · rw [List.all_cons]
          simp [ih2, digitOrDot, hdig]
        · rw [List.count_cons]
          simp [hdot, ih3]
        · cases rest' with
          | nil => trivial
          | cons d t =>
            refine ⟨?_, ih4⟩
            intro ⟨hc1, _⟩
            exact hdot hc1
        · intro _
          simp [hdot]
        · cases rest' with
          | nil =>
            simp [hdot]
          | cons d t =>
            rw [List.getLast?_cons_cons]
            exact ih6
      · rw [if_pos (by simp [hdig])] at h
        exact absurd h (by simp)

/-- Completeness of the scan: a well-formed four-group string scans to a dot
count of exactly 3. -/
theorem ipScan_complete (a b c d : List Char)
    (hna : a ≠ []) (hnb : b ≠ []) (hnc : c ≠ []) (hnd : d ≠ [])
    (hda : a.all isDigitC = true) (hdb : b.all isDigitC = true)
    (hdc : c.all isDigitC = true) (hdd : d.all isDigitC = true) :
    ipScan (a ++ '.' :: (b ++ '.' :: (c ++ '.' :: d)))
      (a ++ '.' :: (b ++ '.' :: (c ++ '.' :: d))) 0 0 (-1) = some 3 := by
  have hA1 : 1 ≤ a.length := List.length_pos.mpr hna
  have hB1 : 1 ≤ b.length := List.length_pos.mpr hnb
  have hC1 : 1 ≤ c.length := List.length_pos.mpr hnc
  have hD1 : 1 ≤ d.length := List.length_pos.mpr hnd
  have hS : (a ++ '.' :: (b ++ '.' :: (c ++ '.' :: d))).length
      = a.length + b.length + c.length + d.length + 3 := by
    simp [List.length_append]
    omega
  rw [ipScan_digits _ a hda]
  rw [ipScan, if_pos rfl]
  rw [if_neg (by omega)]
  rw [if_neg (by push_cast; omega)]
  rw [if_neg (by rw [hS]; omega)]
  rw [ipScan_digits _ b hdb]
  rw [ipScan, if_pos rfl]
  rw [if_neg (by omega)]
  rw [if_neg (by push_cast; omega)]
  rw [if_neg (by rw [hS]; omega)]
  rw [ipScan_digits _ c hdc]
  rw [ipScan, if_pos rfl]
  rw [if_neg (by omega)]
  rw [if_neg (by push_cast; omega)]
  rw [if_neg (by rw [hS]; omega)]
  rw [show (d : List Char) = d ++ [] from (List.append_nil d).symm]
  rw [ipScan_digits _ d hdd]
  rw [ipScan]

/-- `substring(|p|, length)` of `p ++ q` is `q`. -/
theorem substringA_suffix (p q : List Char) :
    substringA (p ++ q) p.length (p ++ q).length = q := by
  unfold substringA
  have hle : p.length ≤ (p ++ q).length := by
    rw [List.length_append]
    omega
  rw [max_eq_right hle, min_self, min_eq_left hle, List.take_length, List.drop_left]

/-- Guarded recursion as a conjunction. -/
theorem if_bool_and (x y : Bool) : (if x = true then y else false) = (x && y) := by
  cases x <;> simp

/-- One extraction-loop iteration below the final octet. -/
theorem octetLoop_step (ip : List Char) (remaining dot start : Nat) (hd3 : dot ≠ 3) :
    octetLoop ip (remaining + 1) dot start
      = if indexOfFrom ip '.' start = -1 then false
        else if octetCheck (substringA ip start (toU32 (indexOfFrom ip '.' start))) then
          octetLoop ip remaining (dot + 1) (toU32 (indexOfFrom ip '.' start) + 1)
        else false := by
  rw [octetLoop]
  simp only [if_neg hd3]

/-- The final iteration takes the whole remaining string. -/
theorem octetLoop_step3 (ip : List Char) (remaining start : Nat) :
    octetLoop ip (remaining + 1) 3 start
      = if ((ip.length : Nat) : Int) = -1 then false
        else if octetCheck (substringA ip start (toU32 ((ip.length : Nat) : Int))) then
          octetLoop ip remaining 4 (toU32 ((ip.length : Nat) : Int) + 1)
        else false := by
  rw [octetLoop]
  simp

/-- On a four-group string the extraction loop checks exactly the four groups. -/
theorem octetLoop_structure (a b c d : List Char)
    (hpa : '.' ∉ a) (hpb : '.' ∉ b) (hpc : '.' ∉ c) (hpd : '.' ∉ d)
    (hlen : (a ++ '.' :: (b ++ '.' :: (c ++ '.' :: d))).length < 2147483648) :
    octetLoop (a ++ '.' :: (b ++ '.' :: (c ++ '.' :: d))) 4 0 0
      = (octetCheck a && (octetCheck b && (octetCheck c && octetCheck d))) := by
  have hS : (a ++ '.' :: (b ++ '.' :: (c ++ '.' :: d))).length
      = a.length + b.length + c.length + d.length + 3 := by
    simp [List.length_append]
    omega
  have hidx0 : indexOfFrom (a ++ '.' :: (b ++ '.' :: (c ++ '.' :: d))) '.' 0
      = ((a.length : Nat) : Int) := by
    rw [indexOfFrom_found _ _ _ _
      (by rw [List.drop_zero, fIdx_append_right _ _ _ hpa, fIdx_cons_self]; rfl)]
    push_cast
    ring
  rw [octetLoop_step _ _ _ _ (by decide), hidx0]
  rw [if_neg (by omega)]
  rw [toU32_coe _ (by omega)]
  rw [substringA_take]
  rw [if_bool_and]
  congr 1
  have hdrop1 : (a ++ '.' :: (b ++ '.' :: (c ++ '.' :: d))).drop (a.length + 1)
      = b ++ '.' :: (c ++ '.' :: d) := by
    rw [show a ++ '.' :: (b ++ '.' :: (c ++ '.' :: d))
        = (a ++ ['.']) ++ (b ++ '.' :: (c ++ '.' :: d)) from by simp]
    rw [show a.length + 1 = (a ++ ['.']).length from by simp]
    rw [List.drop_left]
  have hidx1 : indexOfFrom (a ++ '.' :: (b ++ '.' :: (c ++ '.' :: d))) '.' (a.length + 1)
      = ((a.length + 1 + b.length : Nat) : Int) := by
    rw [indexOfFrom_found _ _ _ _
      (by rw [hdrop1, fIdx_append_right _ _ _ hpb, fIdx_cons_self]; rfl)]
    push_cast
    ring
  rw [octetLoop_step _ _ _ _ (by decide), hidx1]
  rw [if_neg (by omega)]
  rw [toU32_coe _ (by omega)]
  rw [show substringA (a ++ '.' :: (b ++ '.' :: (c ++ '.' :: d)))
      (a.length + 1) (a.length + 1 + b.length) = b from by
    rw [show a ++ '.' :: (b ++ '.' :: (c ++ '.' :: d))
        = (a ++ ['.']) ++ (b ++ ('.' :: (c ++ '.' :: d))) from by simp]
    rw [show a.length + 1 = (a ++ ['.']).length from by simp]
    exact substringA_mid _ _ _]
  rw [if_bool_and]
  congr 1
  have hdrop2 : (a ++ '.' :: (b ++ '.' :: (c ++ '.' :: d))).drop (a.length + 1 + b.length + 1)
      = c ++ '.' :: d := by
    rw [show a ++ '.' :: (b ++ '.' :: (c ++ '.' :: d))
        = ((a ++ ['.']) ++ (b ++ ['.'])) ++ (c ++ '.' :: d) from by simp]
    rw [show a.length + 1 + b.length + 1 = ((a ++ ['.']) ++ (b ++ ['.'])).length from by
      simp
      omega]
    rw [List.drop_left]
  have hidx2 : indexOfFrom (a ++ '.' :: (b ++ '.' :: (c ++ '.' :: d))) '.'
      (a.length + 1 + b.length + 1)
      = ((a.length + 1 + b.length + 1 + c.length : Nat) : Int) := by
    rw [indexOfFrom_found _ _ _ _
      (by rw [hdrop2, fIdx_append_right _ _ _ hpc, fIdx_cons_self]; rfl)]
    push_cast
    ring
  rw [octetLoop_step _ _ _ _ (by decide), hidx2]
  rw [if_neg (by omega)]
  rw [toU32_coe _ (by omega)]
  rw [show substringA (a ++ '.' :: (b ++ '.' :: (c ++ '.' :: d)))
      (a.length + 1 + b.length + 1) (a.length + 1 + b.length + 1 + c.length) = c from by
    rw [show a ++ '.' :: (b ++ '.' :: (c ++ '.' :: d))
        = ((a ++ ['.']) ++ (b ++ ['.'])) ++ (c ++ ('.' :: d)) from by simp]
    rw [show a.length + 1 + b.length + 1 = ((a ++ ['.']) ++ (b ++ ['.'])).length from by
      simp
      omega]
    exact substringA_mid _ _ _]
  rw [if_bool_and]
  congr 1
  rw [octetLoop_step3]
  rw [if_neg (by omega)]
  rw [toU32_coe _ (by omega)]
  rw [show substringA (a ++ '.' :: (b ++ '.' :: (c ++ '.' :: d)))
      (a.length + 1 + b.length + 1 + c.length + 1)
      (a ++ '.' :: (b ++ '.' :: (c ++ '.' :: d))).length = d from by
    rw [show a ++ '.' :: (b ++ '.' :: (c ++ '.' :: d))
        = (((a ++ ['.']) ++ (b ++ ['.'])) ++ (c ++ ['.'])) ++ d from by simp]
    rw [show a.length + 1 + b.length + 1 + c.length + 1
        = (((a ++ ['.']) ++ (b ++ ['.'])) ++ (c ++ ['.'])).length from by
      simp
      omega]
    exact substringA_suffix _ _]
  rw [if_bool_and]
  simp [octetLoop]

/-- A list of length four is literally four elements. -/
theorem list_four {α : Type} (l : List α) (h : l.length = 4) :
    ∃ a b c d, l = [a, b, c, d] := by
  rcases l with _ | ⟨a, _ | ⟨b, _ | ⟨c, _ | ⟨d, rest⟩⟩⟩⟩
  · simp at h
  · simp at h
  · simp at h
  · simp at h
  · have hr : rest = [] := by
      simp [List.length_cons] at h
      exact h
    subst hr
    exact ⟨a, b, c, d, rfl⟩

/-- Four groups rebuild the original string with dots between them. -/
theorem splitDot_four (s o1 o2 o3 o4 : List Char) (h : splitDot s = [o1, o2, o3, o4]) :
    s = o1 ++ '.' :: (o2 ++ '.' :: (o3 ++ '.' :: o4)) := by
  have hj := splitDot_join s
  rw [h] at hj
  rw [← hj, intercalate_eq_join_map]
  simp [List.append_assoc]

/-- A spec-valid octet is a nonempty digit group. -/
theorem specOctet_ne_digits (o : List Char) (h : specOctet o = true) :
    o ≠ [] ∧ o.all isDigitC = true := by
  unfold specOctet at h
  simp only [Bool.and_eq_true, decide_eq_true_eq] at h
  exact ⟨h.1.1.1, h.1.1.2⟩

/-- C8: `TextBox::isValidIPAddress` accepts exactly the strings the spec
describes — four dot-separated numeric groups, each in 0..255 with no leading
zero except the literal "0" (`specValidIP`).  The length bound keeps the
32-bit index arithmetic of the C code exact; every real Arduino string
satisfies it. -/
theorem C8_ip_validator_exact (s : List Char) (hlen : s.length < 2147483648) :
    isValidIPAddress s = specValidIP s := by
  apply bool_eq_of_iff
  constructor
  · intro h
    unfold isValidIPAddress at h
    by_cases h0 : s.length = 0
    · rw [if_pos h0] at h
      exact absurd h (by simp)
    · rw [if_neg h0] at h
      split at h
      · exact absurd h (by simp)
      · rename_i dc hscan
        by_cases hdc : dc ≠ 3
        · rw [if_pos hdc] at h
          exact absurd h (by simp)
        · rw [if_neg hdc] at h
          have hdc3 : dc = 3 := not_not.mp hdc
          subst hdc3
          obtain ⟨_, hall, hcount, hcons, hheadi, hlast⟩ :=
            ipScan_sound s s 0 0 (-1) 3 hscan (by omega)
          have hlen4 : (splitDot s).length = 4 := by
            rw [splitDot_length, hcount]
          obtain ⟨o1, o2, o3, o4, hsplit⟩ := list_four (splitDot s) hlen4
          have hdig : ∀ g ∈ splitDot s, g.all isDigitC = true :=
            splitDot_groups_digit s hall
          have htail := splitDot_tail_ne_nil s hcons hlast
          have hne1 : o1 ≠ [] := by
            cases hs0 : s with
            | nil =>
              exact absurd (by rw [hs0]; rfl) h0
            | cons c rest =>
              have hc : c ≠ '.' := by
                intro hcc
                apply hheadi (by norm_num)
                rw [hs0, hcc]
                rfl
              obtain ⟨g, gs, hh⟩ := splitDot_head_cons c rest hc
              rw [hs0, hh] at hsplit
              have ho1 : o1 = c :: g := by
                injection hsplit with h1 _
                exact h1.symm
              rw [ho1]
              simp
          have hne2 : o2 ≠ [] := htail o2 (by rw [hsplit]; simp)
          have hne3 : o3 ≠ [] := htail o3 (by rw [hsplit]; simp)
          have hne4 : o4 ≠ [] := htail o4 (by rw [hsplit]; simp)
          have hd1 : o1.all isDigitC = true := hdig o1 (by rw [hsplit]; simp)
          have hd2 : o2.all isDigitC = true := hdig o2 (by rw [hsplit]; simp)
          have hd3 : o3.all isDigitC = true := hdig o3 (by rw [hsplit]; simp)
          have hd4 : o4.all isDigitC = true := hdig o4 (by rw [hsplit]; simp)
          have hp1 : '.' ∉ o1 := splitDot_no_dot_mem s o1 (by rw [hsplit]; simp)
          have hp2 : '.' ∉ o2 := splitDot_no_dot_mem s o2 (by rw [hsplit]; simp)
          have hp3 : '.' ∉ o3 := splitDot_no_dot_mem s o3 (by rw [hsplit]; simp)
          have hp4 : '.' ∉ o4 := splitDot_no_dot_mem s o4 (by rw [hsplit]; simp)
          have hstruct : s = o1 ++ '.' :: (o2 ++ '.' :: (o3 ++ '.' :: o4)) :=
            splitDot_four s o1 o2 o3 o4 hsplit
          have hloop : (octetCheck o1 &&
              (octetCheck o2 && (octetCheck o3 && octetCheck o4))) = true := by
            rw [← octetLoop_structure o1 o2 o3 o4 hp1 hp2 hp3 hp4
              (by rw [← hstruct]; exact hlen)]
            rw [← hstruct]
            exact h
          simp only [Bool.and_eq_true] at hloop
          unfold specValidIP
          rw [hsplit]
          simp only [List.all_cons, List.all_nil, Bool.and_eq_true, decide_eq_true_eq]
          refine ⟨by simp, ?_, ?_, ?_, ?_, by simp⟩
          · rw [← octetCheck_eq_specOctet o1 hne1 hd1]
            exact hloop.1
          · rw [← octetCheck_eq_specOctet o2 hne2 hd2]
            exact hloop.2.1
          · rw [← octetCheck_eq_specOctet o3 hne3 hd3]
            exact hloop.2.2.1
          · rw [← octetCheck_eq_specOctet o4 hne4 hd4]
            exact hloop.2.2.2
  · intro h
    unfold specValidIP at h
    simp only [Bool.and_eq_true, decide_eq_true_eq] at h
    obtain ⟨hlen4, hall⟩ := h
    obtain ⟨o1, o2, o3, o4, hsplit⟩ := list_four (splitDot s) hlen4
    have hso : ∀ g ∈ splitDot s, specOctet g = true := List.all_eq_true.mp hall
    have hs1 := hso o1 (by rw [hsplit]; simp)
    have hs2 := hso o2 (by rw [hsplit]; simp)
    have hs3 := hso o3 (by rw [hsplit]; simp)
    have hs4 := hso o4 (by rw [hsplit]; simp)
    obtain ⟨hne1, hd1⟩ := specOctet_ne_digits o1 hs1
    obtain ⟨hne2, hd2⟩ := specOctet_ne_digits o2 hs2
    obtain ⟨hne3, hd3⟩ := specOctet_ne_digits o3 hs3
    obtain ⟨hne4, hd4⟩ := specOctet_ne_digits o4 hs4
    have hp1 : '.' ∉ o1 := splitDot_no_dot_mem s o1 (by rw [hsplit]; simp)
    have hp2 : '.' ∉ o2 := splitDot_no_dot_mem s o2 (by rw [hsplit]; simp)
    have hp3 : '.' ∉ o3 := splitDot_no_dot_mem s o3 (by rw [hsplit]; simp)
    have hp4 : '.' ∉ o4 := splitDot_no_dot_mem s o4 (by rw [hsplit]; simp)
    have hstruct : s = o1 ++ '.' :: (o2 ++ '.' :: (o3 ++ '.' :: o4)) :=
      splitDot_four s o1 o2 o3 o4 hsplit
    have hlen0 : ¬ (o1 ++ '.' :: (o2 ++ '.' :: (o3 ++ '.' :: o4))).length = 0 := by
      simp
    rw [hstruct]
    unfold isValidIPAddress
    rw [if_neg hlen0]
    rw [ipScan_complete o1 o2 o3 o4 hne1 hne2 hne3 hne4 hd1 hd2 hd3 hd4]
    show (if (3 : Nat) ≠ 3 then false
      else octetLoop (o1 ++ '.' :: (o2 ++ '.' :: (o3 ++ '.' :: o4))) 4 0 0) = true
    have h33 : ¬ (3 : Nat) ≠ 3 := by simp
    rw [if_neg h33]
    rw [octetLoop_structure o1 o2 o3 o4 hp1 hp2 hp3 hp4 (by rw [← hstruct]; exact hlen)]
    rw [octetCheck_eq_specOctet o1 hne1 hd1, octetCheck_eq_specOctet o2 hne2 hd2,
      octetCheck_eq_specOctet o3 hne3 hd3, octetCheck_eq_specOctet o4 hne4 hd4]
    simp [hs1, hs2, hs3, hs4]

/-- C8 witness: the exact characterisation applied at `"192.168.1.1"`. -/
theorem C8_ip_validator_witness :
    (toL "192.168.1.1").length < 2147483648 ∧
    isValidIPAddress (toL "192.168.1.1") = specValidIP (toL "192.168.1.1") :=
  ⟨by decide, C8_ip_validator_exact (toL "192.168.1.1") (by decide)⟩

-- ===========================================================================
-- C2: buffered (`generateHTML`) versus streaming (`streamHTML`) page
-- rendering (WebGUI.cpp 1570-1593, 1693-1772, templates 1006-1063,
-- WebGUIStyles.h 16-225).
-- ===========================================================================

/-- Segment 0 of `HTML_TEMPLATE` (WebGUI.cpp 1006-1027): the text before the title hole. -/
def tpl0 : List Char :=
  toL "\n<!DOCTYPE html>\n<html>\n<head>\n    <meta charset=\"UTF-8\">\n    <meta name=\"viewport\" content=\"width=device-width, initial-scale=1.0\">\n    <title>"

/-- Segment 1 of `HTML_TEMPLATE` (WebGUI.cpp 1006-1027): the text between the title and CSS holes. -/
def tpl1 : List Char :=
  toL "</title>\n    <style>\n        "

/-- Segment 2 of `HTML_TEMPLATE` (WebGUI.cpp 1006-1027): the text between the CSS and heading holes. -/
def tpl2 : List Char :=
  toL "\n    </style>\n</head>\n<body>\n    <div class=\"container\">\n        <h1>"

/-- Segment 3 of `HTML_TEMPLATE` (WebGUI.cpp 1006-1027): the text between the heading and elements holes. -/
def tpl3 : List Char :=
  toL "</h1>\n        "

/-- Segment 4 of `HTML_TEMPLATE` (WebGUI.cpp 1006-1027): the text between the elements and JavaScript holes. -/
def tpl4 : List Char :=
  toL "\n    </div>\n    <script>\n        "

/-- Segment 5 of `HTML_TEMPLATE` (WebGUI.cpp 1006-1027): the text after the JavaScript hole. -/
def tpl5 : List Char :=
  toL "\n    </script>\n</body>\n</html>\n"

/-- Chunk 1 of the `WEBGUI_DEFAULT_CSS` raw literal (WebGUIStyles.h 16-225). -/
def cssChunk1 : List Char :=
  toL "\n/* Base styles */\nbody \x7b\n    font-family: \x27Segoe UI\x27, Tahoma, Geneva, Verdana, sans-serif;\n    margin: 0;\n    padding: 20px;\n    background: linear-gradient(135deg, #667eea 0%, #764ba2 100%);\n    min-height: 100vh;\n    color: #333;\n\x7d\n\n.container \x7b\n    position: relative;\n    background-color: white;\n    border-radius: 12px;\n    padding: 30px;\n    box-shadow: 0 8px 32px rgba(0,0,0,0.1);\n    min-he"

/-- Chunk 2 of the `WEBGUI_DEFAULT_CSS` raw literal (WebGUIStyles.h 16-225). -/
def cssChunk2 : List Char :=
  toL "ight: 500px;\n    max-width: 800px;\n    margin: 0 auto;\n\x7d\n\nh1 \x7b\n    color: #2c3e50;\n    margin: 0 0 30px 0;\n    font-size: 28px;\n    font-weight: 300;\n    text-align: center;\n    border-bottom: 2px solid #ecf0f1;\n    padding-bottom: 15px;\n\x7d\n\n/* Button Styles */\n.webgui-button \x7b\n    background: linear-gradient(145deg, #007bff, #0056b3);\n    color: white;\n    border: none;\n    border-radius: 8px;\n   "

/-- Chunk 3 of the `WEBGUI_DEFAULT_CSS` raw literal (WebGUIStyles.h 16-225). -/
def cssChunk3 : List Char :=
  toL " cursor: pointer;\n    font-size: 14px;\n    font-weight: 600;\n    transition: all 0.3s ease;\n    box-shadow: 0 4px 12px rgba(0,123,255,0.3);\n    text-transform: uppercase;\n    letter-spacing: 0.5px;\n\x7d\n\n.webgui-button:hover \x7b\n    background: linear-gradient(145deg, #0056b3, #004085);\n    transform: translateY(-2px);\n    box-shadow: 0 6px 20px rgba(0,123,255,0.4);\n\x7d\n\n.webgui-button:active \x7b\n    trans"

/-- Chunk 4 of the `WEBGUI_DEFAULT_CSS` raw literal (WebGUIStyles.h 16-225). -/
def cssChunk4 : List Char :=
  toL "form: translateY(0);\n    box-shadow: 0 2px 8px rgba(0,123,255,0.3);\n\x7d\n\n/* Button Variants */\n.webgui-button.primary \x7b\n    background: linear-gradient(145deg, #007bff, #0056b3);\n\x7d\n\n.webgui-button.secondary \x7b\n    background: linear-gradient(145deg, #6c757d, #545b62);\n\x7d\n\n.webgui-button.success \x7b\n    background: linear-gradient(145deg, #28a745, #1e7e34);\n\x7d\n\n.webgui-button.danger \x7b\n    background: line"

/-- Chunk 5 of the `WEBGUI_DEFAULT_CSS` raw literal (WebGUIStyles.h 16-225). -/
def cssChunk5 : List Char :=
  toL "ar-gradient(145deg, #dc3545, #bd2130);\n\x7d\n\n.webgui-button.warning \x7b\n    background: linear-gradient(145deg, #ffc107, #d39e00);\n    color: #212529;\n\x7d\n\n/* Slider Container Styles */\n.webgui-slider-container \x7b\n    background: #f8f9fa;\n    border-radius: 10px;\n    padding: 15px;\n    margin-bottom: 10px;\n    border: 1px solid #e9ecef;\n    transition: all 0.2s ease;\n\x7d\n\n.webgui-slider-container:hover \x7b\n  "

/-- Chunk 6 of the `WEBGUI_DEFAULT_CSS` raw literal (WebGUIStyles.h 16-225). -/
def cssChunk6 : List Char :=
  toL "  background: #e9ecef;\n    border-color: #007bff;\n\x7d\n\n.webgui-slider-container label \x7b\n    display: block;\n    margin-bottom: 8px;\n    font-weight: 600;\n    color: #495057;\n    font-size: 14px;\n\x7d\n\n.webgui-slider-value \x7b\n    float: right;\n    background: #007bff;\n    color: white;\n    padding: 4px 10px;\n    border-radius: 15px;\n    font-size: 13px;\n    font-weight: bold;\n    min-width: 35px;\n    tex"

/-- Chunk 7 of the `WEBGUI_DEFAULT_CSS` raw literal (WebGUIStyles.h 16-225). -/
def cssChunk7 : List Char :=
  toL "t-align: center;\n    margin-left: 10px;\n\x7d\n\n/* Slider Input Styles */\n.webgui-slider \x7b\n    width: 100%;\n    height: 8px;\n    border-radius: 4px;\n    background: #dee2e6;\n    outline: none;\n    -webkit-appearance: none;\n    appearance: none;\n    transition: all 0.2s ease;\n\x7d\n\n.webgui-slider::-webkit-slider-thumb \x7b\n    -webkit-appearance: none;\n    appearance: none;\n    width: 20px;\n    height: 20px;\n"

/-- Chunk 8 of the `WEBGUI_DEFAULT_CSS` raw literal (WebGUIStyles.h 16-225). -/
def cssChunk8 : List Char :=
  toL "    border-radius: 50%;\n    background: #007bff;\n    cursor: pointer;\n    border: 3px solid white;\n    box-shadow: 0 2px 6px rgba(0,0,0,0.2);\n    transition: all 0.2s ease;\n\x7d\n\n.webgui-slider::-webkit-slider-thumb:hover \x7b\n    background: #0056b3;\n    transform: scale(1.1);\n    box-shadow: 0 3px 10px rgba(0,0,0,0.3);\n\x7d\n\n.webgui-slider::-moz-range-thumb \x7b\n    width: 20px;\n    height: 20px;\n    border"

/-- Chunk 9 of the `WEBGUI_DEFAULT_CSS` raw literal (WebGUIStyles.h 16-225). -/
def cssChunk9 : List Char :=
  toL "-radius: 50%;\n    background: #007bff;\n    cursor: pointer;\n    border: 3px solid white;\n    box-shadow: 0 2px 6px rgba(0,0,0,0.2);\n\x7d\n\n/* Responsive Design */\n@media (max-width: 600px) \x7b\n    body \x7b\n        padding: 10px;\n    \x7d\n    \n    .container \x7b\n        padding: 20px;\n        border-radius: 8px;\n    \x7d\n    \n    h1 \x7b\n        font-size: 24px;\n    \x7d\n    \n    .webgui-button \x7b\n        font-size: 12px"

/-- Chunk 10 of the `WEBGUI_DEFAULT_CSS` raw literal (WebGUIStyles.h 16-225). -/
def cssChunk10 : List Char :=
  toL ";\n        min-height: 40px;\n    \x7d\n    \n    .webgui-slider-container \x7b\n        padding: 12px;\n    \x7d\n\x7d\n\n/* Animation Classes */\n.webgui-fadeIn \x7b\n    animation: fadeIn 0.5s ease-in;\n\x7d\n\n@keyframes fadeIn \x7b\n    from \x7b opacity: 0; transform: translateY(10px); \x7d\n    to \x7b opacity: 1; transform: translateY(0); \x7d\n\x7d\n\n/* Grid Layout Helper */\n.webgui-grid \x7b\n    display: grid;\n    grid-template-columns: repeat"

/-- Chunk 11 of the `WEBGUI_DEFAULT_CSS` raw literal (WebGUIStyles.h 16-225). -/
def cssChunk11 : List Char :=
  toL "(auto-fit, minmax(250px, 1fr));\n    gap: 20px;\n    margin-top: 20px;\n\x7d\n\n.webgui-card \x7b\n    background: white;\n    border-radius: 8px;\n    padding: 20px;\n    box-shadow: 0 2px 8px rgba(0,0,0,0.1);\n    border: 1px solid #e9ecef;\n\x7d\n"

/-- The `WEBGUI_DEFAULT_CSS` PROGMEM raw literal (WebGUIStyles.h 16-225), as the concatenation of its chunks. -/
def WEBGUI_DEFAULT_CSS : List Char :=
  cssChunk1 ++ cssChunk2 ++ cssChunk3 ++ cssChunk4 ++ cssChunk5 ++ cssChunk6 ++ cssChunk7 ++ cssChunk8 ++ cssChunk9 ++ cssChunk10 ++ cssChunk11

/-- `HTML_TEMPLATE` (WebGUI.cpp 1006-1027) as its segments around the five holes. -/
def HTML_TEMPLATE : List Char :=
  tpl0 ++ toL "%TITLE%" ++ tpl1 ++ toL "%CSS%" ++ tpl2 ++ toL "%HEADING%" ++ tpl3 ++ toL "%ELEMENTS%" ++ tpl4 ++ toL "%JAVASCRIPT%" ++ tpl5

/-- The `BUTTON_TEMPLATE` raw literal (WebGUI.cpp 1029-1031). -/
def BUTTON_TEMPLATE : List Char :=
  toL "\n        <button id=\"%ID%\" class=\"webgui-button\" onclick=\"buttonClick(\x27%ID%\x27)\">%LABEL%</button>\n"

/-- The `SLIDER_TEMPLATE` raw literal (WebGUI.cpp 1033-1038). -/
def SLIDER_TEMPLATE : List Char :=
  toL "\n        <div class=\"webgui-slider-container\">\n            <label for=\"%ID%\">%LABEL% <span class=\"webgui-slider-value\" id=\"%ID%_value\">%VALUE%</span></label>\n            <input type=\"range\" id=\"%ID%\" class=\"webgui-slider\" min=\"%MIN%\" max=\"%MAX%\" value=\"%VALUE%\">\n        </div>\n"

/-- The `SENSOR_STATUS_TEMPLATE` raw literal (WebGUI.cpp 1040-1045). -/
def SENSOR_STATUS_TEMPLATE : List Char :=
  toL "\n        <div class=\"webgui-sensor-container\">\n            <label class=\"webgui-sensor-label\">%LABEL%</label>\n            <span class=\"webgui-sensor-value\" id=\"%ID%_display\">%VALUE%</span>\n        </div>\n"

/-- The `TOGGLE_TEMPLATE` raw literal (WebGUI.cpp 1047-1056). -/
def TOGGLE_TEMPLATE : List Char :=
  toL "\n        <div class=\"webgui-toggle-container\">\n            <label class=\"webgui-toggle-label\">%LABEL%</label>\n            <label class=\"webgui-toggle-switch\">\n                <input type=\"checkbox\" id=\"%ID%\" class=\"webgui-toggle-input\" onchange=\"toggleChange(\x27%ID%\x27, this.checked)\">\n                <span class=\"webgui-toggle-slider\"></span>\n            </label>\n        </div>\n"

/-- The `TEXTBOX_TEMPLATE` raw literal (WebGUI.cpp 1058-1063). -/
def TEXTBOX_TEMPLATE : List Char :=
  toL "\n        <div class=\"webgui-textbox-container\">\n            <label for=\"%ID%\" class=\"webgui-textbox-label\">%LABEL%</label>\n            <input type=\"text\" id=\"%ID%\" class=\"webgui-textbox\" value=\"%VALUE%\" placeholder=\"%PLACEHOLDER%\" onchange=\"textboxChange(\x27%ID%\x27, this.value)\">\n        </div>\n"

/-- The raw literal `WebGUI::generateJS` starts from (WebGUI.cpp 1604-1683). -/
def JS_MAIN : List Char :=
  toL "\n        // Button state tracking\n        var buttonStates = \x7b\x7d;\n        \n        function updateValue(id, val) \x7b\n            fetch(\x27/set?\x27 + id + \x27=\x27 + val).catch(e => console.log(\x27Error:\x27, e));\n        \x7d\n        \n        function buttonClick(id) \x7b\n            fetch(\x27/set?\x27 + id + \x27=1\x27);\n        \x7d\n        \n        function toggleChange(id, checked) \x7b\n            fetch(\x27/set?\x27 + id + \x27=\x27 + (checked ? \x27true\x27 : \x27false\x27));\n        \x7d\n        \n        function textboxChange(id, value) \x7b\n            fetch(\x27/set?\x27 + id + \x27=\x27 + encodeURIComponent(value));\n        \x7d\n        \n        // Initialize button states on page load\n        function initializeButtonStates() \x7b\n            // Set all buttons to inactive state initially\n            var buttons = document.querySelectorAll(\x27.webgui-button\x27);\n            buttons.forEach(function(button) \x7b\n                buttonStates[button.id] = false;\n                button.classList.add(\x27webgui-button-inactive\x27);\n            \x7d);\n        \x7d\n        \n        // Call initialization when page loads\n        document.addEventListener(\x27DOMContentLoaded\x27, initializeButtonStates);\n        \n        // Original immediate slider function (for backward compatibility)\n        function sliderChange(id, value) \x7b\n            document.getElementById(id + \x27_value\x27).textContent = value;\n            fetch(\x27/set?\x27 + id + \x27=\x27 + value);\n        \x7d\n        \n        // New debounced slider function\n        function debouncedSliderChange(id, value, debounceMs) \x7b\n            // Update display immediately for responsiveness\n            document.getElementById(id + \x27_value\x27).textContent = value;\n            \n            // Clear existing timeout for this slider\n            if (window[\x27timeout_\x27 + id]) \x7b\n                clearTimeout(window[\x27timeout_\x27 + id]);\n            \x7d\n            \n            // Set new timeout for network request\n            window[\x27timeout_\x27 + id] = setTimeout(() => \x7b\n                fetch(\x27/set?\x27 + id + \x27=\x27 + value);\n            \x7d, debounceMs);\n        \x7d\n        \n        // Auto-update function for SensorStatus displays\n        function updateSensorDisplays() \x7b\n            fetch(\x27/get\x27).then(response => response.json()).then(data => \x7b\n                for (let elementId in data) \x7b\n                    let displayElement = document.getElementById(elementId + \x27_display\x27);\n                    if (displayElement) \x7b\n                        displayElement.textContent = data[elementId];\n                    \x7d\n                    let toggleElement = document.getElementById(elementId);\n                    if (toggleElement && toggleElement.type === \x27checkbox\x27) \x7b\n                        let shouldBeChecked = (data[elementId] === \x27true\x27 || data[elementId] === \x271\x27);\n                        if (toggleElement.checked !== shouldBeChecked) \x7b\n                            toggleElement.checked = shouldBeChecked;\n                        \x7d\n                    \x7d\n                \x7d\n            \x7d).catch(error => \x7b\n                console.error(\x27Update failed:\x27, error);\n            \x7d);\n        \x7d\n        \n        // Start auto-updating sensor displays every 500ms\n        setInterval(updateSensorDisplays, 500);\n        updateSensorDisplays();\n    "

/-- The literal `client.print` chunks of `WebGUI::streamHTML` before `pageTitle` (WebGUI.cpp 1709-1712). -/
def streamChunk1 : List Char :=
  toL "<!DOCTYPE html><html><head><meta charset=\"UTF-8\"><meta name=\"viewport\" content=\"width=device-width, initial-scale=1.0\"><title>"

/-- The `streamHTML` chunk between `pageTitle` and the CSS (WebGUI.cpp 1714). -/
def streamChunk2 : List Char :=
  toL "</title><style>"

/-- The `streamHTML` chunk between the CSS and `pageHeading` (WebGUI.cpp 1719). -/
def streamChunk3 : List Char :=
  toL "</style></head><body><h1>"

/-- The `streamHTML` chunk after `pageHeading` (WebGUI.cpp 1721). -/
def streamChunk4 : List Char :=
  toL "</h1>"

/-- The concatenated literal JavaScript chunks `streamHTML` prints between the element HTML loop and the element JS loop (WebGUI.cpp 1729-1766). -/
def streamJSChunk : List Char :=
  toL "<script>function updateValue(id,val)\x7bfetch(\x27/set?\x27+id+\x27=\x27+val).catch(e=>console.log(\x27Error:\x27,e));\x7dfunction buttonClick(id)\x7bfetch(\x27/set?\x27+id+\x27=1\x27).catch(e=>console.log(\x27Error:\x27,e));\x7dfunction toggleChange(id,checked)\x7bfetch(\x27/set?\x27+id+\x27=\x27+(checked?\x27true\x27:\x27false\x27)).catch(e=>console.log(\x27Error:\x27,e));\x7dfunction textboxChange(id,value)\x7bfetch(\x27/set?\x27+id+\x27=\x27+encodeURIComponent(value)).catch(e=>console.log(\x27Error:\x27,e));\x7dfunction toggleButton(id)\x7bconst btn=document.getElementById(id);const newState=btn.textContent===\x27ON\x27?\x27OFF\x27:\x27ON\x27;btn.textContent=newState;updateValue(id,newState===\x27ON\x27?\x271\x27:\x270\x27);\x7dfunction updateSensorDisplays()\x7bfetch(\x27/get\x27).then(response=>response.json()).then(data=>\x7bfor(let elementId in data)\x7blet displayElement=document.getElementById(elementId+\x27_display\x27);if(displayElement)\x7bdisplayElement.textContent=data[elementId];\x7dlet toggleElement=document.getElementById(elementId);if(toggleElement&&toggleElement.type===\x27checkbox\x27)\x7blet shouldBeChecked=(data[elementId]===\x27true\x27||data[elementId]===\x271\x27);if(toggleElement.checked!==shouldBeChecked)\x7btoggleElement.checked=shouldBeChecked;\x7d\x7d\x7d\x7d).catch(error=>\x7bconsole.error(\x27Update failed:\x27,error);\x7d);\x7dsetInterval(updateSensorDisplays,500);updateSensorDisplays();"

/-- The final `streamHTML` chunk (WebGUI.cpp 1773). -/
def streamEnd : List Char :=
  toL "</script></body></html>"

/-- Per-class `generateHTML` (WebGUI.cpp 1814-1822, 1871-1877, 1930-1942,
1991-1998, 2144-2151): the class template with its placeholders replaced in
source order; `Toggle` additionally rewrites `type="checkbox"` to
`type="checkbox" checked` when its state is on. -/
def elementHTML : GUIElement → List Char
  | .button b =>
      areplace (areplace BUTTON_TEMPLATE (toL "%ID%") b.id) (toL "%LABEL%") b.label
  | .slider sl =>
      areplace (areplace (areplace (areplace (areplace SLIDER_TEMPLATE
        (toL "%ID%") sl.id) (toL "%LABEL%") sl.label)
        (toL "%MIN%") (toL (toString sl.minValue)))
        (toL "%MAX%") (toL (toString sl.maxValue)))
        (toL "%VALUE%") (toL (toString sl.currentValue))
  | .toggle t =>
      if t.state then
        areplace (areplace (areplace TOGGLE_TEMPLATE (toL "%ID%") t.id)
          (toL "%LABEL%") t.label)
          (toL "type=\"checkbox\"") (toL "type=\"checkbox\" checked")
      else
        areplace (areplace TOGGLE_TEMPLATE (toL "%ID%") t.id) (toL "%LABEL%") t.label
  | .textBox t =>
      areplace (areplace (areplace (areplace TEXTBOX_TEMPLATE
        (toL "%ID%") t.id) (toL "%LABEL%") t.label)
        (toL "%VALUE%") t.textValue)
        (toL "%PLACEHOLDER%") t.placeholderText
  | .sensorStatus s =>
      areplace (areplace (areplace SENSOR_STATUS_TEMPLATE
        (toL "%ID%") s.id) (toL "%LABEL%") s.label)
        (toL "%VALUE%") s.displayValue

/-- Per-class `generateJS`: only `Slider` contributes (WebGUI.cpp 1859-1864);
Button, Toggle, TextBox and SensorStatus return the empty string (WebGUI.cpp
1883-1886, 1948-1951, 2005-2008, 2157-2160). -/
def elementJS : GUIElement → List Char
  | .slider sl =>
      toL "document.getElementById(\x27" ++ sl.id ++
      toL "\x27).oninput = function() \x7b document.getElementById(\x27" ++ sl.id ++
      toL "_value\x27).textContent = this.value; updateValue(\x27" ++ sl.id ++
      toL "\x27, this.value); \x7d;\n"
  | _ => []

/-- The element-HTML block both renderers embed: one `generateHTML()` fragment
per registered widget, in registration order (WebGUI.cpp 1582-1586,
1723-1726). -/
def elementsHTML (els : List GUIElement) : List Char := (els.map elementHTML).flatten

/-- The element-JS block both renderers embed, in registration order
(WebGUI.cpp 1685-1688, 1766-1769). -/
def elementsJS (els : List GUIElement) : List Char := (els.map elementJS).flatten

/-- The page metadata `generateHTML`/`streamHTML` read from the `WebGUI`
object: title, heading and the custom-style configuration. -/
structure PageConfig where
  pageTitle : List Char
  pageHeading : List Char
  useCustomStyles : Bool
  customCSS : List Char

/-- The `WebGUI` constructor defaults (WebGUI.cpp 1071-1073): title
`"Arduino WebGUI"`, heading `"Control Panel"`, no custom styles. -/
def defaultConfig : PageConfig :=
  ⟨toL "Arduino WebGUI", toL "Control Panel", false, []⟩

/-- Modelled from the spec: `WebGUIStyleManager::getDefaultCSS` is declared in
WebGUIStyles.h (line 263) but its definition is not part of this source tree;
per the spec the default styling is the `WEBGUI_DEFAULT_CSS` style sheet. -/
def getDefaultCSS : List Char := WEBGUI_DEFAULT_CSS

/-- `WebGUI::generateCSS` (WebGUI.cpp 1595-1601). -/
def generateCSSOut (cfg : PageConfig) : List Char :=
  if cfg.useCustomStyles then cfg.customCSS else getDefaultCSS

/-- `WebGUI::generateJS` (WebGUI.cpp 1603-1690): the main raw literal followed
by each element's `generateJS()`. -/
def generateJSOut (els : List GUIElement) : List Char := JS_MAIN ++ elementsJS els

/-- `WebGUI::generateHTML` (WebGUI.cpp 1570-1593): the template with the five
placeholders replaced in source order (title, heading, CSS, elements,
JavaScript). -/
def generateHTMLOut (cfg : PageConfig) (els : List GUIElement) : List Char :=
  areplace (areplace (areplace (areplace (areplace HTML_TEMPLATE
    (toL "%TITLE%") cfg.pageTitle)
    (toL "%HEADING%") cfg.pageHeading)
    (toL "%CSS%") (generateCSSOut cfg))
    (toL "%ELEMENTS%") (elementsHTML els))
    (toL "%JAVASCRIPT%") (generateJSOut els)

/-- The save-status reset `streamHTML` applies to each element before
rendering (WebGUI.cpp 1695-1706): an element whose label contains
`"Save Status"` and whose value contains `"saved"` or `"Saving"` receives
`handleUpdate("Ready to save settings")`. -/
def resetSaveStep (e : GUIElement) : GUIElement :=
  if hasSub (toL "Save Status") e.getLabel then
    if hasSub (toL "saved") e.getValue || hasSub (toL "Saving") e.getValue then
      e.handleUpdate (toL "Ready to save settings")
    else e
  else e

/-- `WebGUI::streamHTML` (WebGUI.cpp 1693-1773): the byte stream written to the
client, with the save-status reset applied first.  The streamed page always
prints `WEBGUI_DEFAULT_CSS`, has no `container` div and uses the minimal
chunked JavaScript. -/
def streamHTMLOut (cfg : PageConfig) (els : List GUIElement) : List Char :=
  streamChunk1 ++ cfg.pageTitle ++ streamChunk2 ++ WEBGUI_DEFAULT_CSS
    ++ streamChunk3 ++ cfg.pageHeading ++ streamChunk4
    ++ elementsHTML (els.map resetSaveStep) ++ streamJSChunk
    ++ elementsJS (els.map resetSaveStep) ++ streamEnd

/-- Whitespace removal for the "modulo whitespace" comparison. -/
def stripWS (s : List Char) : List Char := s.filter (fun c => !(isSpaceC c))

/-- Configuration with custom styles enabled (empty custom sheet), used by the
C2 counterexample. -/
def c2cfg : PageConfig :=
  ⟨toL "Arduino WebGUI", toL "Control Panel", true, []⟩

/-- C2 counterexample: with custom styles configured (an empty custom sheet)
and an empty registry, the buffered and streamed pages differ inside their
first 200 non-whitespace bytes — `generateHTML` honours `customCSS` while
`streamHTML` always prints `WEBGUI_DEFAULT_CSS` — so the outputs are not
byte-identical modulo whitespace. -/
theorem C2_counterexample :
    (stripWS (generateHTMLOut c2cfg [])).take 200
      ≠ (stripWS (streamHTMLOut c2cfg [])).take 200 := by decide

/-- `areplaceGo` is the identity on the empty list at any fuel. -/
theorem areplaceGo_nil (find repl : List Char) (fuel : Nat) :
    areplaceGo find repl fuel [] = [] := by
  cases fuel <;> rfl

/-- A prefix test that fits inside the left part of an append ignores the
right part. -/
theorem hasPfxB_append_left (p a b : List Char) (h : p.length ≤ a.length) :
    hasPfxB p (a ++ b) = hasPfxB p a := by
  induction p generalizing a with
  | nil => rfl
  | cons q qs ih =>
    cases a with
    | nil => simp at h
    | cons c cs =>
      simp only [List.cons_append, hasPfxB, List.append_eq]
      rw [ih cs (by simpa using h)]

/-- Every list is a prefix of itself followed by anything. -/
theorem hasPfxB_self_append (p t : List Char) : hasPfxB p (p ++ t) = true := by
  induction p with
  | nil => rfl
  | cons c cs ih => simp [hasPfxB, ih]

/-- Scan certificate: every `'%'` in the list starts a window that lies fully
inside the list and does not match `find`.  Since the searched patterns start
with `'%'`, this rules out any occurrence of `find` beginning in the list,
even one that would straddle into an appended continuation. -/
def cleanScanB (find : List Char) : List Char → Bool
  | [] => true
  | c :: rest =>
    (if c = '%' then
      decide (find.length ≤ rest.length + 1) && !(hasPfxB find (c :: rest))
    else true) && cleanScanB find rest

/-- The scanner copies a certified-clean concrete segment unchanged and
continues on the rest with the remaining fuel. -/
theorem areplaceGo_skipC (fs repl : List Char) :
    ∀ (P tail : List Char) (fuel : Nat), cleanScanB ('%' :: fs) P = true →
    areplaceGo ('%' :: fs) repl (P.length + fuel) (P ++ tail)
      = P ++ areplaceGo ('%' :: fs) repl fuel tail := by
  intro P
  induction P with
  | nil => intro tail fuel _; simp
  | cons c P ih =>
    intro tail fuel hc
    rw [cleanScanB] at hc
    simp only [Bool.and_eq_true] at hc
    obtain ⟨hc1, hc2⟩ := hc
    have hlen : (c :: P).length + fuel = (P.length + fuel) + 1 := by
      simp [List.length_cons]; omega
    rw [hlen]
    have hno : hasPfxB ('%' :: fs) (c :: (P ++ tail)) = false := by
      by_cases hcp : c = '%'
      · subst hcp
        rw [if_pos rfl] at hc1
        simp only [Bool.and_eq_true, Bool.not_eq_true', decide_eq_true_eq] at hc1
        obtain ⟨hfit, hnm⟩ := hc1
        have hle : ('%' :: fs).length ≤ ('%' :: P).length := by
          simp only [List.length_cons] at hfit ⊢; omega
        calc hasPfxB ('%' :: fs) (('%' :: P) ++ tail)
            = hasPfxB ('%' :: fs) ('%' :: P) := hasPfxB_append_left _ _ _ hle
          _ = false := hnm
      · simp [hasPfxB, Ne.symm hcp]
    show areplaceGo ('%' :: fs) repl ((P.length + fuel) + 1) (c :: (P ++ tail)) = _
    rw [areplaceGo, if_neg (by simp [hno])]
    rw [ih tail fuel hc2]
    rfl

/-- The scanner, positioned exactly at the searched pattern, emits the
replacement and resumes after the occurrence. -/
theorem areplaceGo_hit (fs repl tail : List Char) (fuel : Nat) :
    areplaceGo ('%' :: fs) repl (fuel + 1) (('%' :: fs) ++ tail)
      = repl ++ areplaceGo ('%' :: fs) repl fuel tail := by
  show areplaceGo ('%' :: fs) repl (fuel + 1) ('%' :: (fs ++ tail)) = _
  rw [areplaceGo,
    if_pos (show hasPfxB ('%' :: fs) ('%' :: (fs ++ tail)) = true from
      hasPfxB_self_append ('%' :: fs) tail)]
  congr 1
  have hdrop : (fs ++ tail).drop (('%' :: fs).length - 1) = tail := by
    simp only [List.length_cons, Nat.add_sub_cancel]
    exact List.drop_left fs tail
  rw [hdrop]

/-- The save-status reset leaves an element alone when its label does not
contain `"Save Status"`. -/
theorem resetSaveStep_id (e : GUIElement)
    (h : hasSub (toL "Save Status") e.getLabel = false) : resetSaveStep e = e := by
  rw [resetSaveStep, if_neg (by simp [h])]

/-- The save-status reset is the identity on a registry without
`"Save Status"` labels. -/
theorem map_resetSave (els : List GUIElement)
    (h : ∀ e ∈ els, hasSub (toL "Save Status") e.getLabel = false) :
    els.map resetSaveStep = els := by
  induction els with
  | nil => rfl
  | cons e rest ih =>
    simp only [List.map_cons]
    rw [resetSaveStep_id e (h e (by simp)), ih (fun d hd => h d (by simp [hd]))]


/-- A `'%'`-free segment is trivially scan-clean for any pattern. -/
theorem cleanScanB_of_pctFree (find v : List Char) (h : '%' ∉ v) :
    cleanScanB find v = true := by
  induction v with
  | nil => rfl
  | cons c rest ih =>
    rw [cleanScanB]
    have hc : ¬ c = '%' := fun hh => h (by rw [hh]; exact List.mem_cons_self _ _)
    rw [if_neg hc]
    simp [ih (fun hm => h (List.mem_cons_of_mem _ hm))]

/-- The scanner copies a concatenation of scan-clean segments unchanged. -/
theorem areplaceGo_skipAll (fs repl : List Char) :
    ∀ (segs : List (List Char)) (tail : List Char) (fuel : Nat),
    (∀ s ∈ segs, cleanScanB ('%' :: fs) s = true) →
    areplaceGo ('%' :: fs) repl (segs.flatten.length + fuel) (segs.flatten ++ tail)
      = segs.flatten ++ areplaceGo ('%' :: fs) repl fuel tail := by
  intro segs
  induction segs with
  | nil => intro tail fuel _; simp
  | cons s rest ih =>
    intro tail fuel h
    have hs := h s (by simp)
    have hrest : ∀ x ∈ rest, cleanScanB ('%' :: fs) x = true :=
      fun x hx => h x (by simp [hx])
    simp only [List.flatten_cons]
    have hL : (s ++ rest.flatten).length + fuel
        = s.length + (rest.flatten.length + fuel) := by
      simp [List.length_append]; omega
    rw [hL]
    have hA : (s ++ rest.flatten) ++ tail = s ++ (rest.flatten ++ tail) := by
      simp [List.append_assoc]
    rw [hA]
    rw [areplaceGo_skipC fs repl s (rest.flatten ++ tail) (rest.flatten.length + fuel) hs]
    rw [ih tail fuel hrest]
    simp [List.append_assoc]

/-- `String::replace` on a string holding exactly one occurrence of the
pattern, certified segment by segment, substitutes that occurrence. -/
theorem areplace_segs (fs w : List Char) (pre post : List (List Char))
    (hpre : ∀ s ∈ pre, cleanScanB ('%' :: fs) s = true)
    (hpost : ∀ s ∈ post, cleanScanB ('%' :: fs) s = true) :
    areplace (pre.flatten ++ ('%' :: fs) ++ post.flatten) ('%' :: fs) w
      = pre.flatten ++ w ++ post.flatten := by
  rw [areplace, if_neg (by simp)]
  have hL : (pre.flatten ++ ('%' :: fs) ++ post.flatten).length
      = pre.flatten.length + ((post.flatten.length + fs.length) + 1) := by
    simp [List.length_append]; omega
  rw [hL]
  have hass : pre.flatten ++ ('%' :: fs) ++ post.flatten
      = pre.flatten ++ (('%' :: fs) ++ post.flatten) := by
    simp [List.append_assoc]
  rw [hass]
  rw [areplaceGo_skipAll fs w pre (('%' :: fs) ++ post.flatten)
    ((post.flatten.length + fs.length) + 1) hpre]
  rw [areplaceGo_hit fs w post.flatten (post.flatten.length + fs.length)]
  have hpostid : areplaceGo ('%' :: fs) w (post.flatten.length + fs.length)
      post.flatten = post.flatten := by
    have h2 := areplaceGo_skipAll fs w post [] fs.length hpost
    rw [List.append_nil, areplaceGo_nil, List.append_nil] at h2
    exact h2
  rw [hpostid]
  simp [List.append_assoc]

/-- C2 (amended): byte-identity modulo whitespace fails (see the
counterexample), but both renderers embed the identical element blocks.  For
the default page metadata and any registry whose rendered element HTML
contains no `'%'` and whose labels avoid `"Save Status"` (so the streaming
renderer's save-status reset is a no-op), the buffered and the streamed page
each decompose into fixed frames around the same contiguous `elementsHTML`
block and the same contiguous `elementsJS` block — one fragment per widget, in
registration order — so both pages carry the same widget identifiers in the
same element ordering, while the frames themselves (container div, CSS
source, JavaScript body) differ between the modes. -/
theorem C2_same_elements_amended (els : List GUIElement)
    (hH : '%' ∉ elementsHTML els)
    (hS : ∀ e ∈ els, hasSub (toL "Save Status") e.getLabel = false) :
    generateHTMLOut defaultConfig els
        = tpl0 ++ toL "Arduino WebGUI" ++ tpl1 ++ WEBGUI_DEFAULT_CSS ++ tpl2
            ++ toL "Control Panel" ++ tpl3 ++ elementsHTML els ++ tpl4
            ++ JS_MAIN ++ elementsJS els ++ tpl5
    ∧ streamHTMLOut defaultConfig els
        = streamChunk1 ++ toL "Arduino WebGUI" ++ streamChunk2 ++ WEBGUI_DEFAULT_CSS
            ++ streamChunk3 ++ toL "Control Panel" ++ streamChunk4
            ++ elementsHTML els ++ streamJSChunk ++ elementsJS els ++ streamEnd := by
  constructor
  · have hT : toL "%TITLE%" = '%' :: toL "TITLE%" := rfl
    have hC : toL "%CSS%" = '%' :: toL "CSS%" := rfl
    have hHd : toL "%HEADING%" = '%' :: toL "HEADING%" := rfl
    have hE : toL "%ELEMENTS%" = '%' :: toL "ELEMENTS%" := rfl
    have hJ2 : toL "%JAVASCRIPT%" = '%' :: toL "JAVASCRIPT%" := rfl
    have hcfg1 : defaultConfig.pageTitle = toL "Arduino WebGUI" := rfl
    have hcfg2 : defaultConfig.pageHeading = toL "Control Panel" := rfl
    have hcss : generateCSSOut defaultConfig = WEBGUI_DEFAULT_CSS := rfl
    unfold generateHTMLOut
    rw [hcfg1, hcfg2, hcss, hT, hC, hHd, hE, hJ2]
    have h1shape : HTML_TEMPLATE
        = [tpl0].flatten ++ ('%' :: toL "TITLE%")
            ++ [tpl1, ('%' :: toL "CSS%") ++ tpl2, ('%' :: toL "HEADING%") ++ tpl3,
                ('%' :: toL "ELEMENTS%") ++ tpl4,
                ('%' :: toL "JAVASCRIPT%") ++ tpl5].flatten := by
      simp [HTML_TEMPLATE, hT, hC, hHd, hE, hJ2, List.append_assoc]
    rw [h1shape]
    rw [areplace_segs (toL "TITLE%") (toL "Arduino WebGUI") [tpl0]
      [tpl1, ('%' :: toL "CSS%") ++ tpl2, ('%' :: toL "HEADING%") ++ tpl3,
        ('%' :: toL "ELEMENTS%") ++ tpl4, ('%' :: toL "JAVASCRIPT%") ++ tpl5]
      (by intro s hs; fin_cases hs <;> decide)
      (by intro s hs; fin_cases hs <;> decide)]
    have h2shape : [tpl0].flatten ++ toL "Arduino WebGUI"
          ++ [tpl1, ('%' :: toL "CSS%") ++ tpl2, ('%' :: toL "HEADING%") ++ tpl3,
              ('%' :: toL "ELEMENTS%") ++ tpl4,
              ('%' :: toL "JAVASCRIPT%") ++ tpl5].flatten
        = [tpl0, toL "Arduino WebGUI", tpl1, ('%' :: toL "CSS%") ++ tpl2].flatten
            ++ ('%' :: toL "HEADING%")
            ++ [tpl3, ('%' :: toL "ELEMENTS%") ++ tpl4,
                ('%' :: toL "JAVASCRIPT%") ++ tpl5].flatten := by
      simp [List.append_assoc]
    rw [h2shape]
    rw [areplace_segs (toL "HEADING%") (toL "Control Panel")
      [tpl0, toL "Arduino WebGUI", tpl1, ('%' :: toL "CSS%") ++ tpl2]
      [tpl3, ('%' :: toL "ELEMENTS%") ++ tpl4, ('%' :: toL "JAVASCRIPT%") ++ tpl5]
      (by intro s hs; fin_cases hs <;> decide)
      (by intro s hs; fin_cases hs <;> decide)]
    have h3shape : [tpl0, toL "Arduino WebGUI", tpl1,
            ('%' :: toL "CSS%") ++ tpl2].flatten ++ toL "Control Panel"
          ++ [tpl3, ('%' :: toL "ELEMENTS%") ++ tpl4,
              ('%' :: toL "JAVASCRIPT%") ++ tpl5].flatten
        = [tpl0, toL "Arduino WebGUI", tpl1].flatten ++ ('%' :: toL "CSS%")
            ++ [tpl2, toL "Control Panel", tpl3, ('%' :: toL "ELEMENTS%") ++ tpl4,
                ('%' :: toL "JAVASCRIPT%") ++ tpl5].flatten := by
      simp [List.append_assoc]
    rw [h3shape]
    rw [areplace_segs (toL "CSS%") WEBGUI_DEFAULT_CSS
      [tpl0, toL "Arduino WebGUI", tpl1]
      [tpl2, toL "Control Panel", tpl3, ('%' :: toL "ELEMENTS%") ++ tpl4,
        ('%' :: toL "JAVASCRIPT%") ++ tpl5]
      (by intro s hs; fin_cases hs <;> decide)
      (by intro s hs; fin_cases hs <;> decide)]
    have h4shape : [tpl0, toL "Arduino WebGUI", tpl1].flatten ++ WEBGUI_DEFAULT_CSS
          ++ [tpl2, toL "Control Panel", tpl3, ('%' :: toL "ELEMENTS%") ++ tpl4,
              ('%' :: toL "JAVASCRIPT%") ++ tpl5].flatten
        = [tpl0, toL "Arduino WebGUI", tpl1, cssChunk1, cssChunk2, cssChunk3,
            cssChunk4, cssChunk5, cssChunk6, cssChunk7, cssChunk8, cssChunk9,
            cssChunk10, cssChunk11, tpl2, toL "Control Panel", tpl3].flatten
            ++ ('%' :: toL "ELEMENTS%")
            ++ [tpl4, ('%' :: toL "JAVASCRIPT%") ++ tpl5].flatten := by
      simp [WEBGUI_DEFAULT_CSS, List.append_assoc]
    rw [h4shape]
    rw [areplace_segs (toL "ELEMENTS%") (elementsHTML els)
      [tpl0, toL "Arduino WebGUI", tpl1, cssChunk1, cssChunk2, cssChunk3,
        cssChunk4, cssChunk5, cssChunk6, cssChunk7, cssChunk8, cssChunk9,
        cssChunk10, cssChunk11, tpl2, toL "Control Panel", tpl3]
      [tpl4, ('%' :: toL "JAVASCRIPT%") ++ tpl5]
      (by intro s hs; fin_cases hs <;> decide)
      (by intro s hs; fin_cases hs <;> decide)]
    have h5shape : [tpl0, toL "Arduino WebGUI", tpl1, cssChunk1, cssChunk2,
            cssChunk3, cssChunk4, cssChunk5, cssChunk6, cssChunk7, cssChunk8,
            cssChunk9, cssChunk10, cssChunk11, tpl2, toL "Control Panel",
            tpl3].flatten ++ elementsHTML els
          ++ [tpl4, ('%' :: toL "JAVASCRIPT%") ++ tpl5].flatten
        = [tpl0, toL "Arduino WebGUI", tpl1, cssChunk1, cssChunk2, cssChunk3,
            cssChunk4, cssChunk5, cssChunk6, cssChunk7, cssChunk8, cssChunk9,
            cssChunk10, cssChunk11, tpl2, toL "Control Panel", tpl3,
            elementsHTML els, tpl4].flatten
            ++ ('%' :: toL "JAVASCRIPT%") ++ [tpl5].flatten := by
      simp [List.append_assoc]
    rw [h5shape]
    rw [areplace_segs (toL "JAVASCRIPT%") (generateJSOut els)
      [tpl0, toL "Arduino WebGUI", tpl1, cssChunk1, cssChunk2, cssChunk3,
        cssChunk4, cssChunk5, cssChunk6, cssChunk7, cssChunk8, cssChunk9,
        cssChunk10, cssChunk11, tpl2, toL "Control Panel", tpl3,
        elementsHTML els, tpl4]
      [tpl5]
      (by intro s hs; fin_cases hs <;>
        first
          | exact cleanScanB_of_pctFree ('%' :: toL "JAVASCRIPT%") (elementsHTML els) hH
          | decide)
      (by intro s hs; fin_cases hs <;> decide)]
    simp [generateJSOut, WEBGUI_DEFAULT_CSS, List.append_assoc]
  · unfold streamHTMLOut
    rw [map_resetSave els hS]
    simp [defaultConfig, List.append_assoc]

/-- Concrete one-button registry for the C2 witness. -/
def c2els : List GUIElement :=
  [GUIElement.button ⟨toL "element0", toL "Go", false, false⟩]

/-- C2 witness: the amended decomposition applied to a one-button registry. -/
theorem C2_same_elements_witness :
    ('%' ∉ elementsHTML c2els ∧
      ∀ e ∈ c2els, hasSub (toL "Save Status") e.getLabel = false) ∧
    (generateHTMLOut defaultConfig c2els
        = tpl0 ++ toL "Arduino WebGUI" ++ tpl1 ++ WEBGUI_DEFAULT_CSS ++ tpl2
            ++ toL "Control Panel" ++ tpl3 ++ elementsHTML c2els ++ tpl4
            ++ JS_MAIN ++ elementsJS c2els ++ tpl5
      ∧ streamHTMLOut defaultConfig c2els
        = streamChunk1 ++ toL "Arduino WebGUI" ++ streamChunk2 ++ WEBGUI_DEFAULT_CSS
            ++ streamChunk3 ++ toL "Control Panel" ++ streamChunk4
            ++ elementsHTML c2els ++ streamJSChunk ++ elementsJS c2els ++ streamEnd) :=
  ⟨⟨by decide, by decide⟩,
    C2_same_elements_amended c2els (by decide) (by decide)⟩

-- ===========================================================================
-- C6: the client-facing dispatch of `WebGUI::processClient`
-- (WebGUI.cpp 1418-1465) and the error handling of `handleSetRequest`.
-- ===========================================================================

/-- The five `client.println` lines of the set branch (WebGUI.cpp 1434-1438):
`println` appends CRLF to each line. -/
def okResponse : List Char :=
  toL "HTTP/1.1 200 OK\r\nContent-Type: text/plain\r\nConnection: close\r\n\r\nOK\r\n"

/-- The header lines of the get branch (WebGUI.cpp 1441-1444). -/
def jsonHeaderC : List Char :=
  toL "HTTP/1.1 200 OK\r\nContent-Type: application/json\r\nConnection: close\r\n\r\n"

/-- The header lines of the page branch (WebGUI.cpp 1448-1451). -/
def htmlHeaderC : List Char :=
  toL "HTTP/1.1 200 OK\r\nContent-Type: text/html\r\nConnection: close\r\n\r\n"

/-- The request dispatch of `WebGUI::processClient` once a full request has
been accumulated (WebGUI.cpp 1429-1453): the response bytes written to the
client and the registry afterwards.  A request containing `"GET /set?"` is
routed to `handleSetRequest` and answered 200 `text/plain` `"OK"`
unconditionally; otherwise `"GET /get"` is answered with the JSON snapshot;
any other request streams the page (which resets save-status elements). -/
def processRequest (cfg : PageConfig) (request : List Char) (els : List GUIElement) :
    List Char × List GUIElement :=
  if indexOfStr request (toL "GET /set?") ≥ 0 then
    (okResponse, handleSetRequest request els)
  else if indexOfStr request (toL "GET /get") ≥ 0 then
    (jsonHeaderC ++ generateGetResponse els ++ toL "\r\n", els)
  else
    (htmlHeaderC ++ streamHTMLOut cfg els, els.map resetSaveStep)

/-- C6: a set request is answered 200 `text/plain` `"OK"` regardless of the
match outcome, and when every parameter name the request submits (segments
without `=`, or with `=` first, submit none) matches no registered identifier,
the registry is unchanged: malformed and unknown parameters are silently
ignored. -/
theorem C6_set_response_ok (cfg : PageConfig) (request : List Char)
    (els : List GUIElement) (hset : indexOfStr request (toL "GET /set?") ≥ 0) :
    (processRequest cfg request els).1 = okResponse ∧
    ((∀ n ∈ requestNames request, ∀ e ∈ els, e.getID ≠ n) →
      (processRequest cfg request els).2 = els) := by
  constructor
  · rw [processRequest, if_pos hset]
  · intro hunmatched
    rw [processRequest, if_pos hset]
    show handleSetRequest request els = els
    rw [handleSetRequest]
    apply setLoop_unmatched
    intro n hn
    exact hunmatched n hn

/-- Concrete set request for the C6 witness: one segment without `=`, one
unknown parameter, one segment whose `=` is first. -/
def c6req : List Char := toL "GET /set?foo&bar=1&=x HTTP/1.1\r\n\r\n"

/-- Concrete one-toggle registry for the C6 witness; no id matches `bar`. -/
def c6els : List GUIElement :=
  [GUIElement.toggle ⟨toL "led", toL "LED", false, false⟩]

/-- C6 witness: the malformed and unknown parameters of `c6req` are ignored,
the registry survives unchanged and the response is still the plain `OK`. -/
theorem C6_set_response_witness :
    (indexOfStr c6req (toL "GET /set?") ≥ 0) ∧
    (processRequest defaultConfig c6req c6els).1 = okResponse ∧
    ((∀ n ∈ requestNames c6req, ∀ e ∈ c6els, e.getID ≠ n) →
      (processRequest defaultConfig c6req c6els).2 = c6els) :=
  ⟨by decide, C6_set_response_ok defaultConfig c6req c6els (by decide)⟩
